import Mathlib

set_option maxHeartbeats 1000000

/-!
Verification of the turbobackend-worker job orchestration engine.

The definitions below are a shallow embedding of the worker's JavaScript
source.  External collaborators (sandbox, LLM, source host, deployment
platform, cluster databases) are modelled as oracle environments whose
fallible operations return `Except String _`; a returned `.error e` models a
thrown JavaScript exception carrying message `e`.  Publishing on the pub/sub
bus and queries against the control database on a healthy pooled client are
modelled as infallible.  All identifiers are nano-ids (ASCII strings).
-/

namespace TurboBackend

/-! ## Pub/sub messages (src/worker/pubsub-handlers.js) -/

/-- A message published on a job's stream channel.  `progress` models
`publishProgress` (non-terminal), `success` models `publishSuccess`
(`complete=true, isError=false`), `error` models `publishError`
(`complete=true, isError=true`), and `typed` models `publishToChannel`
with a structured JSON payload (`apiBlueprint`, `deployment_triggered`). -/
inductive Msg where
  | progress (message : String) (value : Nat)
  | success (content : String)
  | error (content : String)
  | typed (payload : String)
  deriving Repr, DecidableEq

/-- A message is terminal when it carries `complete=true`. -/
def Msg.isTerminal : Msg → Bool
  | .success _ => true
  | .error _ => true
  | _ => false

/-- Number of terminal (`complete=true`) messages in a published sequence. -/
def terminalCount (msgs : List Msg) : Nat :=
  (msgs.filter Msg.isTerminal).length

/-- The sequence of progress percentages in a published sequence, in order. -/
def progressValues (msgs : List Msg) : List Nat :=
  msgs.filterMap fun m =>
    match m with
    | .progress _ v => some v
    | _ => none

/-! ## Agent commands and the command executor
(src/worker/utils/agentCommandExecutor.js) -/

/-- A structured command emitted by the agent.  The `unknown` variant models
a command object whose `type` field matches none of the five recognized
strings (the executor's `default:` case). -/
inductive AgentCommand where
  | execute (command : String)
  | write (path : String) (content : String)
  | read (path : String)
  | delete (path : String)
  | dbQuery (query : String) (schemaName : String) (queryType : String)
  | unknown (typeName : String)
  deriving Repr, DecidableEq

/-- Oracle for the sandbox operations the executor dispatches to
(daytonaService.js).  Each operation either returns a result string or
throws. -/
structure SandboxEnv where
  execCmd : String → Except String String
  writeFile : String → String → Except String String
  readFile : String → Except String String
  deleteFile : String → Except String String

/-- One entry of the executor's result list: `{command, success, result}` on
success and `{command, success:false, error}` on failure. -/
structure CmdResult where
  command : AgentCommand
  success : Bool
  result : Option String
  error : Option String
  deriving Repr, DecidableEq

/-- The body of the executor's per-command `switch`.  A `db_query` command is
only stored (`{stored:true, query}`, modelled as a tagged string) and an
unrecognized type throws. -/
def runOneCommand (env : SandboxEnv) : AgentCommand → Except String String
  | .execute c => env.execCmd c
  | .write p content => env.writeFile p content
  | .read p => env.readFile p
  | .delete p => env.deleteFile p
  | .dbQuery q _ _ => .ok ("stored:" ++ q)
  | .unknown t => .error ("Unknown command type: " ++ t)

/-- The result entry pushed for one command: the `try`/`catch` around the
`switch` in `executeAgentCommands`. -/
def mkCmdResult (env : SandboxEnv) (cmd : AgentCommand) : CmdResult :=
  match runOneCommand env cmd with
  | .ok r => ⟨cmd, true, some r, none⟩
  | .error e => ⟨cmd, false, none, some e⟩

/-- executeAgentCommands: the `for (const cmd of commands)` loop, pushing one
result entry per command in declared order. -/
def executeAgentCommands (env : SandboxEnv) (commands : List AgentCommand) :
    List CmdResult :=
  commands.foldl (fun results cmd => results ++ [mkCmdResult env cmd]) []

/-! ## Cost accumulator (src/utils/messageCostTracker.js) -/

/-- One row of the message_cost_tracker table, as inserted by
`trackMessageCost`.  The dollar cost column is a derived float and is
abstracted away; the claims concern the token counts and the type tag. -/
structure CostRow where
  projectId : String
  jobId : String
  userId : String
  promptContent : String
  messageType : String
  model : String
  inputTokens : Nat
  outputTokens : Nat
  deriving Repr, DecidableEq

/-- The arguments object passed to `trackMessageCost`. -/
structure CostArgs where
  inputTokens : Nat
  outputTokens : Nat
  projectId : String
  jobId : String
  userId : String
  promptContent : String
  messageType : String
  model : String
  deriving Repr, DecidableEq

/-- The row built inside `trackMessageCost` from its arguments. -/
def buildCostRow (a : CostArgs) : CostRow :=
  { projectId := a.projectId, jobId := a.jobId, userId := a.userId,
    promptContent := a.promptContent, messageType := a.messageType,
    model := a.model, inputTokens := a.inputTokens,
    outputTokens := a.outputTokens }

/-- trackMessageCost: builds the row and attempts the INSERT.  Its `catch`
block logs the error and then executes `throw error`, so an insert failure
is re-raised to the caller (it is not swallowed).  `insertRow` is the oracle
for the INSERT against the control database pool. -/
def trackMessageCost (insertRow : CostRow → Except String Unit)
    (a : CostArgs) : Except String CostRow :=
  match insertRow (buildCostRow a) with
  | .ok _ => .ok (buildCostRow a)
  | .error e => .error e

/-! ## The agentic loop (src/worker/llms/agenticLoopExecutor.js, `runAgenticLoop`) -/

/-- String containment: models JavaScript `String.prototype.includes`. -/
def strContains (s pat : String) : Bool :=
  decide (pat.data <:+: s.data)

/-- determineFileType: the static typing rule applied to each written path. -/
def determineFileType (filePath : String) : String :=
  if strContains filePath "/api/" then "route"
  else if strContains filePath "/middleware/" then "middleware"
  else if strContains filePath "/models/" then "model"
  else if strContains filePath "/utils/" then "utility"
  else if filePath.endsWith ".config.ts" || filePath.endsWith ".config.js" then "config"
  else "other"

/-- An entry of the loop's `filesModified` list.  The JavaScript object
pushed by the loop has exactly the keys `path`, `content`, `type`; it has no
`isNew` key.  `isNew : Option Bool` models presence or absence of that key
(`none` = the key is absent, i.e. `undefined`). -/
structure FileMod where
  path : String
  content : String
  ftype : String
  isNew : Option Bool
  deriving Repr, DecidableEq

/-- An entry of the loop's `dbQueries` list:
`{query: cmd.query, schemaName: cmd.schemaName, type: cmd.queryType}`. -/
structure DbQuery where
  query : String
  schemaName : String
  queryType : String
  deriving Repr, DecidableEq

/-- The `filesModified` entries contributed by one iteration's commands.
Only `write` commands are tracked; note that no `isNew` field is set. -/
def trackWrites (commands : List AgentCommand) : List FileMod :=
  commands.filterMap fun c =>
    match c with
    | .write p content => some ⟨p, content, determineFileType p, none⟩
    | _ => none

/-- The `dbQueries` entries contributed by one iteration's commands. -/
def trackDbQueries (commands : List AgentCommand) : List DbQuery :=
  commands.filterMap fun c =>
    match c with
    | .dbQuery q s t => some ⟨q, s, t⟩
    | _ => none

/-- The agent's JSON response shape, once parsed. -/
structure AgentResponse where
  reasoning : String
  commands : List AgentCommand
  taskComplete : Bool
  summary : String
  apiBlueprint : Option String
  deriving Repr, DecidableEq

/-- How one iteration's raw LLM text fares under the loop's parsing ladder:
`parsed` = `JSON.parse` succeeds directly; `sanitized` = the direct parse
fails but the control-character-escaping retry succeeds; `unparseable` =
both fail (the loop synthesizes a fallback, appends a corrective user turn
and executes `continue`). -/
inductive ParseOutcome where
  | parsed (resp : AgentResponse)
  | sanitized (resp : AgentResponse)
  | unparseable
  deriving Repr, DecidableEq

/-- Whether an iteration's token usage gets accumulated.  In the source the
`continue` in the double-parse-failure path jumps back to the loop head
before the `totalInputTokens += ...` lines, so unparseable iterations are
not counted. -/
def ParseOutcome.isCounted : ParseOutcome → Bool
  | .unparseable => false
  | _ => true

/-- The oracle's answer for one LLM call: the parse fate of `result.text`
together with `result.usage`. -/
structure LLMTurn where
  outcome : ParseOutcome
  inputTokens : Nat
  outputTokens : Nat
  deriving Repr, DecidableEq

/-- The mutable state of `runAgenticLoop`'s while loop.  `tcBreak` is
instrumentation recording whether the loop exited via the
`if (agentResponse.taskComplete === true) break` statement; `lastBlueprint`
models the post-loop blueprint extraction (which re-parses the raw assistant
texts, so it only yields a value when the breaking response was parseable
without sanitization). -/
structure LoopState where
  iteration : Nat
  totalIn : Nat
  totalOut : Nat
  filesModified : List FileMod
  dbQueries : List DbQuery
  tcBreak : Bool
  lastBlueprint : Option String
  deriving Repr, DecidableEq

/-- The state update of one successfully parsed iteration: accumulate the
token usage and append the tracked writes and deferred db queries. -/
def applyParsedStep (st : LoopState) (it : Nat) (turn : LLMTurn)
    (resp : AgentResponse) : LoopState :=
  { iteration := it,
    totalIn := st.totalIn + turn.inputTokens,
    totalOut := st.totalOut + turn.outputTokens,
    filesModified := st.filesModified ++ trackWrites resp.commands,
    dbQueries := st.dbQueries ++ trackDbQueries resp.commands,
    tcBreak := st.tcBreak,
    lastBlueprint := st.lastBlueprint }

/-- The `while (iteration < maxIterations)` loop, fuel-indexed: calling with
fuel = maxIterations - st.iteration exactly models the remaining permitted
passes.  The llm oracle is indexed by the (1-based) iteration counter. -/
def loopIter (llm : Nat → LLMTurn) : Nat → LoopState → LoopState
  | 0, st => st
  | fuel + 1, st =>
    let it := st.iteration + 1
    let turn := llm it
    match turn.outcome with
    | .unparseable =>
      -- fallback response, corrective user turn, then `continue`
      loopIter llm fuel { st with iteration := it }
    | .parsed resp =>
      let st2 := applyParsedStep st it turn resp
      if resp.taskComplete then
        { st2 with tcBreak := true, lastBlueprint := resp.apiBlueprint }
      else loopIter llm fuel st2
    | .sanitized resp =>
      let st2 := applyParsedStep st it turn resp
      if resp.taskComplete then
        { st2 with tcBreak := true, lastBlueprint := none }
      else loopIter llm fuel st2

/-- The loop state when `runAgenticLoop`'s while loop exits, starting from
the initial counters. -/
def finalLoopState (llm : Nat → LLMTurn) (maxIterations : Nat) : LoopState :=
  loopIter llm maxIterations
    { iteration := 0, totalIn := 0, totalOut := 0, filesModified := [],
      dbQueries := [], tcBreak := false, lastBlueprint := none }

/-- The aggregated Message-Cost row that `runAgenticLoop` hands to
`trackMessageCost` once after the loop. -/
def aggregatedRow (llm : Nat → LLMTurn) (maxIterations : Nat)
    (projectId userId requestId userRequest : String) : CostRow :=
  { projectId := projectId, jobId := requestId, userId := userId,
    promptContent := userRequest,
    messageType := "agentic-container-execution", model := "grok-4-fast",
    inputTokens := (finalLoopState llm maxIterations).totalIn,
    outputTokens := (finalLoopState llm maxIterations).totalOut }

/-- The record returned by `runAgenticLoop`.  In the source
`success: iteration < maxIterations` and the summary string is chosen by the
same comparison. -/
structure AgentResult where
  success : Bool
  iterations : Nat
  filesModified : List FileMod
  dbQueries : List DbQuery
  summary : String
  apiBlueprint : Option String
  tcBreak : Bool
  deriving Repr, DecidableEq

/-- runAgenticLoop: run the while loop, then call `trackMessageCost` exactly
once with the aggregated totals (`messageType="agentic-container-execution"`,
model `grok-4-fast`), then build the result record.  The second component
collects the Message-Cost rows actually inserted during the call.  The
`trackMessageCost` call is not guarded by any try/catch, so its failure
aborts the whole invocation. -/
def runAgenticLoop (llm : Nat → LLMTurn) (maxIterations : Nat)
    (insertRow : CostRow → Except String Unit)
    (projectId userId requestId userRequest : String) :
    Except String AgentResult × List CostRow :=
  let fin := finalLoopState llm maxIterations
  match trackMessageCost insertRow
      { inputTokens := fin.totalIn, outputTokens := fin.totalOut,
        projectId := projectId, jobId := requestId, userId := userId,
        promptContent := userRequest,
        messageType := "agentic-container-execution",
        model := "grok-4-fast" } with
  | .error e => (.error e, [])
  | .ok row =>
    (.ok { success := decide (fin.iteration < maxIterations),
           iterations := fin.iteration,
           filesModified := fin.filesModified,
           dbQueries := fin.dbQueries,
           summary := if fin.iteration < maxIterations then
               "Task completed successfully"
             else "Max iterations reached before task completion",
           apiBlueprint := fin.lastBlueprint,
           tcBreak := fin.tcBreak },
     [row])

/-- An insert oracle that always succeeds. -/
def okInsert : CostRow → Except String Unit := fun _ => .ok ()

/-- Projection of a `runAgenticLoop` return value onto the result record
(defaulting on the error case); used to state concrete evaluations. -/
def resultOf (x : Except String AgentResult × List CostRow) : AgentResult :=
  match x.1 with
  | .ok r => r
  | .error _ =>
    { success := false, iterations := 0, filesModified := [], dbQueries := [],
      summary := "", apiBlueprint := none, tcBreak := false }

/-- Sum of the input tokens of the counted (parseable) iterations among
iterations lo, lo+1, ..., lo+len-1. -/
def countedIn (llm : Nat → LLMTurn) (lo : Nat) : Nat → Nat
  | 0 => 0
  | len + 1 =>
    (if (llm lo).outcome.isCounted then (llm lo).inputTokens else 0) +
      countedIn llm (lo + 1) len

/-- Sum of the output tokens of the counted (parseable) iterations among
iterations lo, lo+1, ..., lo+len-1. -/
def countedOut (llm : Nat → LLMTurn) (lo : Nat) : Nat → Nat
  | 0 => 0
  | len + 1 =>
    (if (llm lo).outcome.isCounted then (llm lo).outputTokens else 0) +
      countedOut llm (lo + 1) len

/-! ## Modification-type classification
(src/worker/handlers/projectModificationExecutionHandler.js,
`determineModificationType`) -/

/-- JavaScript truthiness of a possibly-absent boolean property
(`undefined` is falsy). -/
def truthy : Option Bool → Bool
  | some b => b
  | none => false

/-- determineModificationType, exactly as in the source: `f.isNew` on an
object without that key is `undefined`, hence falsy. -/
def determineModificationType (filesModified : List FileMod) : String :=
  let hasNewRoutes := filesModified.any fun f => f.ftype == "route" && truthy f.isNew
  let hasModifiedRoutes := filesModified.any fun f => f.ftype == "route" && !truthy f.isNew
  if hasNewRoutes then "endpoints_added"
  else if hasModifiedRoutes then "endpoints_modified"
  else "business_logic_modified"

/-- Modelled from the spec (§4.11.3), for comparison with the source's
`determineModificationType`: let newRoutes be the files of type route marked
new and changedRoutes the files of type route not marked new; if newRoutes
is non-empty then endpoints_added, else if changedRoutes is non-empty then
endpoints_modified, else business_logic_modified. -/
def modificationTypeSpec (filesModified : List FileMod) : String :=
  let newRoutes := filesModified.filter fun f => f.ftype == "route" && truthy f.isNew
  let changedRoutes := filesModified.filter fun f => f.ftype == "route" && !truthy f.isNew
  if newRoutes ≠ [] then "endpoints_added"
  else if changedRoutes ≠ [] then "endpoints_modified"
  else "business_logic_modified"

/-! ## Deterministic name derivations
(databaseProvisioner.js, devDatabaseExecutor.js, flyioService.js,
projectCreationExecutionHandler.js, daytonaService.js) -/

/-- Character replacement underlying the JavaScript global regex replace of
every hyphen by an underscore in projectId. -/
def repChar (c : Char) : Char := if c = '-' then '_' else c

/-- ASCII model of JavaScript `String.prototype.toLowerCase`, applied
characterwise.  Identifiers in this system are nano-ids and therefore
ASCII. -/
def lowerChar (c : Char) : Char :=
  if c = 'A' then 'a' else if c = 'B' then 'b' else if c = 'C' then 'c'
  else if c = 'D' then 'd' else if c = 'E' then 'e' else if c = 'F' then 'f'
  else if c = 'G' then 'g' else if c = 'H' then 'h' else if c = 'I' then 'i'
  else if c = 'J' then 'j' else if c = 'K' then 'k' else if c = 'L' then 'l'
  else if c = 'M' then 'm' else if c = 'N' then 'n' else if c = 'O' then 'o'
  else if c = 'P' then 'p' else if c = 'Q' then 'q' else if c = 'R' then 'r'
  else if c = 'S' then 's' else if c = 'T' then 't' else if c = 'U' then 'u'
  else if c = 'V' then 'v' else if c = 'W' then 'w' else if c = 'X' then 'x'
  else if c = 'Y' then 'y' else if c = 'Z' then 'z' else c

/-- Characterwise lowercasing of a string (JS `toLowerCase`). -/
def lowerStr (s : String) : String := ⟨s.data.map lowerChar⟩

/-- JS global replace of every hyphen by an underscore. -/
def replaceHyphens (s : String) : String := ⟨s.data.map repChar⟩

/-- databaseProvisioner.js line 12:
the template `turbobackend_proj_` + projectId with hyphens globally replaced
by underscores, and `.toLowerCase()` applied to the whole template. -/
def provisionerDbName (projectId : String) : String :=
  lowerStr ("turbobackend_proj_" ++ replaceHyphens projectId)

/-- devDatabaseExecutor.js line 23: the same template but with no
`.toLowerCase()` call. -/
def devExecutorDbName (projectId : String) : String :=
  "turbobackend_proj_" ++ replaceHyphens projectId

/-- The app name `turbobackend-` + projectId with `.toLowerCase()`, as
derived in flyioService.js (lines 9, 114, 156, 198) and
projectCreationExecutionHandler.js (lines 204, 215). -/
def flyServiceAppName (projectId : String) : String :=
  lowerStr ("turbobackend-" ++ projectId)

/-- The app name written into the fallback fly.toml by daytonaService.js's
deployment-file check (template `app = "turbobackend-projectId"`, no
`.toLowerCase()`). -/
def daytonaFlyTomlAppName (projectId : String) : String :=
  "turbobackend-" ++ projectId

/-- Modelled from the spec (I5): `turbobackend_proj_` + projectId lowercased
with hyphens replaced by underscores. -/
def specDbName (projectId : String) : String :=
  "turbobackend_proj_" ++ replaceHyphens (lowerStr projectId)

/-- Modelled from the spec (I5): `turbobackend-` + projectId lowercased. -/
def specAppName (projectId : String) : String :=
  "turbobackend-" ++ lowerStr projectId

/-! ## Adding tables to an existing database
(projectModificationExecutionHandler.js, `addTablesToExistingDatabase` and
its phase-7 call site) -/

/-- One row of the project_databases table. -/
structure ProjectDbRow where
  projectId : String
  dbName : String
  isActive : Bool
  deriving Repr, DecidableEq

/-- The SELECT for the active project database row. -/
def activeDbRow (rows : List ProjectDbRow) (projectId : String) :
    Option ProjectDbRow :=
  (rows.filter fun r => r.projectId == projectId && r.isActive).head?

/-- addTablesToExistingDatabase: looks up the active project-database row
(throwing when there is none) and then logs.  After the lookup the function
body consists of a console.log and the comment
"TODO: Execute queries on existing database" — no query is executed against
the project database.  The returned list is the DDL statements actually
executed there; it is always empty. -/
def addTablesToExistingDatabase (rows : List ProjectDbRow)
    (projectId : String) (createTableQueries : List DbQuery) :
    Except String (List String) :=
  match activeDbRow rows projectId with
  | none => .error "No active database found for project"
  | some _ => .ok []

/-- Phase 7 of the modification handler: filter the loop's deferred
db_query commands down to CREATE TABLE and, when any remain, call
addTablesToExistingDatabase.  Returns the DDL statements executed on the
project's database. -/
def modificationPhase7 (rows : List ProjectDbRow) (projectId : String)
    (dbQueries : List DbQuery) : Except String (List String) :=
  if dbQueries.length > 0 then
    let createTableQueries := dbQueries.filter fun q => q.queryType == "CREATE TABLE"
    if createTableQueries.length > 0 then
      addTablesToExistingDatabase rows projectId createTableQueries
    else .ok []
  else .ok []

/-! ## Source-repo lookup (githubBranchManager.js, `getProjectGitHubRepo`) -/

/-- One row of the project_github_repos table. -/
structure RepoRow where
  projectId : String
  repoUrl : String
  branch : String
  isActive : Bool
  deriving Repr, DecidableEq

/-- The SELECT for the most recent active repo row (ORDER BY created_at DESC
LIMIT 1; the list is kept in that order). -/
def activeRepoRow (rows : List RepoRow) (projectId : String) : Option RepoRow :=
  (rows.filter fun r => r.projectId == projectId && r.isActive).head?

/-- getProjectGitHubRepo: throws
"No GitHub repository found for project projectId" when no active row
exists. -/
def getProjectGitHubRepo (rows : List RepoRow) (projectId : String) :
    Except String RepoRow :=
  match activeRepoRow rows projectId with
  | none => .error ("No GitHub repository found for project " ++ projectId)
  | some r => .ok r

/-! ## Pipeline execution with publishing

A pipeline body is modelled in a writer-plus-exceptions shape: it
accumulates the messages published so far and either returns a value or
carries the thrown error.  This mirrors the linear `await` sequences of the
handlers, where any thrown exception jumps to the `catch` block. -/

/-- A pipeline fragment: the messages it publishes together with its
result or thrown error. -/
def StepResult (α : Type) : Type := List Msg × Except String α

/-- Sequencing of pipeline fragments: on a throw the rest is skipped. -/
def stepBind {α β : Type} (x : StepResult α) (f : α → StepResult β) :
    StepResult β :=
  match x with
  | (msgs, .error e) => (msgs, .error e)
  | (msgs, .ok a) => (msgs ++ (f a).1, (f a).2)

/-- A fragment that publishes nothing and returns. -/
def stepPure {α : Type} (a : α) : StepResult α := ([], .ok a)

instance : Monad StepResult where
  pure := stepPure
  bind := stepBind

/-- publishProgress on the job's stream. -/
def emitProgress (message : String) (value : Nat) : StepResult Unit :=
  ([.progress message value], .ok ())

/-- publishToChannel with a structured payload. -/
def emitTyped (payload : String) : StepResult Unit :=
  ([.typed payload], .ok ())

/-- An awaited external operation: publishes nothing; a `.error` models the
operation throwing. -/
def liftE {α : Type} (x : Except String α) : StepResult α := ([], x)

/-- An explicit throw (`throw new Error ...`). -/
def stepFail {α : Type} (e : String) : StepResult α := ([], .error e)

/-- The observable outcome of one processed job: everything published on its
stream, whether the outer control-database transaction was committed, and
the processor's own result (an `.error` re-raises to the queue). -/
structure RunOutcome where
  published : List Msg
  committed : Bool
  result : Except String Unit
  deriving Repr

/-! ## The modification pipeline
(src/worker/handlers/projectModificationExecutionHandler.js) -/

/-- The view of deployProjectToFlyIO used by the handler. -/
structure DeployView where
  url : String
  deriving Repr, DecidableEq

/-- Oracle environment for one modification job: the control-database table
contents it reads and the outcome of each awaited external operation.
Consecutive publish-free awaited steps are grouped into a single `Except`
since their individual failures are observationally identical.  The
branch name is `feature/modification-` + a timestamp and is passed in. -/
structure ModEnv where
  provisionContainer : Except String String
  repoRows : List RepoRow
  cloneOutcome : Except String Unit
  branchOutcome : Except String Unit
  contextFiles : Except String (List String)
  agentOutcome : Except String AgentResult
  dbRows : List ProjectDbRow
  commitOutcome : Except String Unit
  pushFeatureOutcome : Except String Unit
  mergeOutcome : Except String Unit
  pushMainOutcome : Except String Unit
  blueprintRead : Except String String
  deployOutcome : Except String DeployView
  shouldRedeploy : Bool

/-- The body of the modification handler's `try` block, up to (and
excluding) COMMIT and publishSuccess.  Activity-ledger writes
(`trackActivity`) swallow their own failures and publish nothing, so they
do not appear as fallible steps. -/
def modificationBody (env : ModEnv) (projectId branchName : String) :
    StepResult AgentResult := do
  emitProgress "Provisioning new sandbox..." 10
  let _containerId ← liftE env.provisionContainer
  emitProgress "Sandbox provisioned" 15
  let _repoInfo ← liftE (getProjectGitHubRepo env.repoRows projectId)
  emitProgress "Repository found" 20
  liftE env.cloneOutcome
  emitProgress "Project cloned" 25
  liftE env.branchOutcome
  emitProgress ("Feature branch created: " ++ branchName) 30
  let _files ← liftE env.contextFiles
  emitProgress "Project context loaded" 35
  emitProgress "Processing modifications" 40
  let agentResult ← liftE env.agentOutcome
  emitProgress "Modifications complete" 70
  let _executed ← liftE (modificationPhase7 env.dbRows projectId agentResult.dbQueries)
  liftE env.commitOutcome
  liftE env.pushFeatureOutcome
  emitProgress "Feature branch pushed" 80
  liftE env.mergeOutcome
  liftE env.pushMainOutcome
  emitProgress "Changes merged to main" 85
  -- Phase 9.5: blueprint update, guarded by its own try/catch (a failed
  -- read or parse is swallowed and nothing is published).
  (if agentResult.filesModified.any (fun f => f.path == "api-blueprint.json") then
    match env.blueprintRead with
    | .ok bp => emitTyped ("apiBlueprint:" ++ bp)
    | .error _ => stepPure ()
   else stepPure ())
  -- github_push and modification-type activity rows: swallowed, no publish
  (if env.shouldRedeploy then do
    let _deploy ← liftE env.deployOutcome
    emitProgress "Redeployment complete" 95
   else stepPure ())
  -- container session INSERT on the outer client: control DB, infallible
  pure agentResult

/-- The success content published by the modification handler. -/
def modificationSuccessContent (agentResult : AgentResult) : String :=
  "Project modifications completed successfully! Files modified: " ++
    toString agentResult.filesModified.length ++ " Summary: " ++
    agentResult.summary

/-- handleProjectModificationOrchestration: run the body; on success COMMIT
then publishSuccess; on a thrown error ROLLBACK, publishError with the
"Modification failed: " prefix, and re-raise. -/
def handleProjectModificationOrchestration (env : ModEnv)
    (projectId branchName : String) : RunOutcome :=
  match modificationBody env projectId branchName with
  | (msgs, .ok agentResult) =>
    { published := msgs ++ [.success (modificationSuccessContent agentResult)],
      committed := true, result := .ok () }
  | (msgs, .error e) =>
    { published := msgs ++ [.error ("Modification failed: " ++ e)],
      committed := false, result := .error e }

/-! ## The creation pipeline
(src/worker/handlers/projectCreationExecutionHandler.js) -/

/-- The schema designer's view used by the handler (table names only; the
full column structure is irrelevant to the claims). -/
structure SchemaView where
  tables : List String
  deriving Repr, DecidableEq

/-- createFlyApp's return value: `{success, error}` (the handler throws when
success is false). -/
structure FlyAppView where
  success : Bool
  error : String
  deriving Repr, DecidableEq

/-- The view of pushToGitHubDeterministic used by the handler. -/
structure PushView where
  repoUrl : String
  deriving Repr, DecidableEq

/-- Oracle environment for one creation job.  The three intent detectors
catch all of their own errors and return a safe default, so they are
infallible booleans here.  Consecutive publish-free awaited steps are
grouped into one `Except` each (their individual failures are
observationally identical).  Control-database statements on the handler's
pooled client and activity/ledger writes (which swallow failures) are
infallible and publish nothing. -/
structure CreationEnv where
  needsAuth : Bool
  needsPayments : Bool
  needsDatabase : Bool
  designOutcome : Except String SchemaView
  provisionOutcome : Except String Unit
  containerOutcome : Except String String
  integrationOutcome : Except String Unit
  agentOutcome : Except String AgentResult
  corsOutcome : Except String Unit
  dbCommitCmds : Except String Unit
  ghWorkflowOutcome : Except String Unit
  flyTomlOutcome : Except String Unit
  flyctlInstall : Except String Unit
  flyAppOutcome : Except String FlyAppView
  secretsCmd : Except String Unit
  pushBlockCmds : Except String Unit
  pushOutcome : Except String PushView
  s3Outcome : Except String String
  blueprintWrite : Except String Unit
  blueprintCommitCmds : Except String Unit

/-- The data the creation body hands to the post-COMMIT publishing code. -/
structure CreationInfo where
  dbName : Option String
  agentResult : AgentResult
  pushed : Option PushView
  blueprint : Option String
  deriving Repr, DecidableEq

/-- Phase 0.3 of the creation handler: auth and payment detection.  The
detectors never throw; when a need is detected, a progress message with
value 8 (auth) or 9 (payments) is published — after the initial value 10. -/
def creationPhaseDetect (env : CreationEnv) : StepResult Unit := do
  (if env.needsAuth then
    emitProgress "Authentication required - Clerk will be configured" 8
   else stepPure ())
  (if env.needsPayments then
    emitProgress "Payment processing required - Stripe will be configured" 9
   else stepPure ())

/-- Phase 0.5 of the creation handler: schema design and database
provisioning when the database detector fired; returns the derived
database name. -/
def creationPhaseDb (env : CreationEnv) (projectId : String) :
    StepResult (Option String) :=
  if env.needsDatabase then do
    emitProgress "Database required - designing schema..." 12
    let _schema ← liftE env.designOutcome
    emitProgress "Provisioning database..." 15
    liftE env.provisionOutcome
    emitProgress ("Database provisioned: " ++ provisionerDbName projectId) 18
    pure (some (provisionerDbName projectId))
  else stepPure none

/-- Integration specs loading, when auth or payments were detected. -/
def creationPhaseIntegration (env : CreationEnv) : StepResult Unit :=
  if env.needsAuth || env.needsPayments then do
    emitProgress "Loading integration specifications..." 25
    liftE env.integrationOutcome
    emitProgress "Integration specs loaded" 28
  else stepPure ()

/-- Post-loop deterministic injections: CORS, the optional db-connection
commit, the GitHub Actions workflow, the fly.toml and Dockerfile, the
flyctl install, the Fly.io app creation (throwing when the service reports
failure), and the optional database secrets. -/
def creationPhaseInject (env : CreationEnv) (dbProvisioned : Bool) :
    StepResult Unit := do
  liftE env.corsOutcome
  emitProgress "CORS configured" 72
  (if dbProvisioned then do
    liftE env.dbCommitCmds
    emitProgress "Database connection file committed" 73
   else stepPure ())
  liftE env.ghWorkflowOutcome
  emitProgress "GitHub Actions configured" 74
  liftE env.flyTomlOutcome
  emitProgress "Deployment files created" 76
  liftE env.flyctlInstall
  emitProgress "flyctl installed" 77
  let flyApp ← liftE env.flyAppOutcome
  (if flyApp.success then stepPure ()
   else stepFail ("Failed to create Fly.io app: " ++ flyApp.error))
  emitProgress "Fly.io app created" 78
  (if dbProvisioned then do
    liftE env.secretsCmd
    emitProgress "Database secrets configured in Fly.io" 79
   else stepPure ())

/-- Phase 3: commit the injected files, push to GitHub and mirror to S3 —
only when the agent modified at least one file. -/
def creationPhasePush (env : CreationEnv) (filesModifiedCount : Nat) :
    StepResult (Option PushView) :=
  if filesModifiedCount > 0 then do
    liftE env.pushBlockCmds
    let pushRes ← liftE env.pushOutcome
    emitProgress "Code pushed to GitHub" 80
    -- setGitHubSecret: guarded try/catch, swallowed
    let _s3 ← liftE env.s3Outcome
    emitProgress "Files uploaded to S3" 90
    pure (some pushRes)
  else stepPure none

/-- Blueprint persistence: write the file in the container, commit it, and
INSERT the row — when the agent produced a blueprint. -/
def creationPhaseBlueprint (env : CreationEnv) (apiBlueprint : Option String) :
    StepResult (Option String) :=
  match apiBlueprint with
  | some bp => do
    liftE env.blueprintWrite
    liftE env.blueprintCommitCmds
    pure (some bp)
  | none => stepPure none

/-- The body of the creation handler's `try` block up to (and excluding)
COMMIT: detection, optional schema design and database provisioning,
container setup, the agentic loop, deterministic injections, Fly.io app
creation, optional push/S3, optional blueprint persistence, credential
placeholders.  Activity-ledger writes and control-database statements on
the handler's client are infallible and publish nothing, so they do not
appear as steps. -/
def creationBody (env : CreationEnv) (projectId : String) :
    StepResult CreationInfo := do
  emitProgress "Starting execution..." 10
  creationPhaseDetect env
  let dbName? ← creationPhaseDb env projectId
  let _containerId ← liftE env.containerOutcome
  emitProgress "Container provisioned" 20
  creationPhaseIntegration env
  -- project_created activity: guarded try/catch, publishes nothing
  emitProgress "Starting agentic loop" 30
  let agentResult ← liftE env.agentOutcome
  emitProgress "Agentic loop complete" 70
  creationPhaseInject env dbName?.isSome
  let pushed? ← creationPhasePush env agentResult.filesModified.length
  let blueprint? ← creationPhaseBlueprint env agentResult.apiBlueprint
  -- env-var requirements and credential placeholders: swallow internally
  pure { dbName := dbName?, agentResult := agentResult, pushed := pushed?,
         blueprint := blueprint? }

/-- The success content published by the creation handler (`successParts`);
the dollar-cost formatting is abstracted. -/
def creationSuccessContent (projectId : String) (info : CreationInfo) : String :=
  "Project created successfully! Files modified: " ++
    toString info.agentResult.filesModified.length ++
    " Deploying to: https://" ++ flyServiceAppName projectId ++ ".fly.dev"

/-- handleProjectCreationOrchestration: run the body; on success COMMIT,
publish the typed apiBlueprint message when a blueprint row was stored, then
the terminal success, then the typed deployment_triggered message when a
push happened; on a thrown error ROLLBACK, publishError with the
"Execution failed: " prefix, and re-raise. -/
def handleProjectCreationOrchestration (env : CreationEnv)
    (projectId : String) : RunOutcome :=
  match creationBody env projectId with
  | (msgs, .ok info) =>
    { published := msgs ++
        (match info.blueprint with
         | some bp => [Msg.typed ("apiBlueprint:" ++ bp)]
         | none => []) ++
        [.success (creationSuccessContent projectId info)] ++
        (if info.agentResult.filesModified.length > 0 && info.pushed.isSome then
          [Msg.typed "deployment_triggered"]
         else []),
      committed := true, result := .ok () }
  | (msgs, .error e) =>
    { published := msgs ++ [.error ("Execution failed: " ++ e)],
      committed := false, result := .error e }

/-! ## The secret-sync processor
(src/worker/processors/flyioSecretsSyncProcessor.js) -/

/-- syncCredentialsToFlyio's return value: it catches all of its own errors
and returns `{success, error}` instead of throwing. -/
structure SyncView where
  success : Bool
  error : String
  deriving Repr, DecidableEq

/-- flyioSecretsSyncProcessor: BEGIN, run the sync, COMMIT on success,
otherwise ROLLBACK and throw the reported error.  The processor contains no
publish call at all (its job payload carries no streamId), so nothing is
ever published on any stream. -/
def flyioSecretsSyncProcessor (syncOutcome : SyncView)
    (_projectId _credentialName _credentialValue : String) : RunOutcome :=
  if syncOutcome.success then
    { published := [], committed := true, result := .ok () }
  else
    { published := [], committed := false, result := .error syncOutcome.error }

/-! ## Predicates used by the theorems -/

/-- A message sequence with no terminal message. -/
def NoTerm (l : List Msg) : Prop := ∀ m ∈ l, m.isTerminal = false

/-! ## Concrete instances used by witnesses and counterexamples -/

/-- A sandbox oracle whose exec operation fails; the file operations
succeed. -/
def c9env : SandboxEnv :=
  { execCmd := fun _ => .error "command timed out",
    writeFile := fun p _ => .ok ("wrote " ++ p),
    readFile := fun p => .ok ("contents of " ++ p),
    deleteFile := fun p => .ok ("deleted " ++ p) }

/-- A batch with a failing command in the middle. -/
def c9cmds : List AgentCommand :=
  [.write "server/api/a.get.js" "export default 1",
   .execute "pnpm install",
   .read "package.json"]

/-- An insert oracle that always fails. -/
def c3failInsert : CostRow → Except String Unit := fun _ => .error "db down"

/-- Concrete trackMessageCost arguments. -/
def c3args : CostArgs :=
  { inputTokens := 100, outputTokens := 50, projectId := "p1", jobId := "j1",
    userId := "u1", promptContent := "make an api",
    messageType := "agentic-container-execution", model := "grok-4-fast" }

/-- An LLM oracle that completes on the first iteration. -/
def c3llm : Nat → LLMTurn :=
  fun _ => ⟨.parsed ⟨"done", [], true, "all good", none⟩, 10, 5⟩

/-- C5 counterexample oracle: iteration 1 is unparseable even after
sanitization (10 input, 5 output tokens billed by the provider), iteration 2
parses and completes (20 input, 7 output tokens). -/
def c5llm : Nat → LLMTurn := fun i =>
  if i = 1 then ⟨.unparseable, 10, 5⟩
  else ⟨.parsed ⟨"retrying with valid JSON", [], true, "done", none⟩, 20, 7⟩

/-- C5 witness oracle: completes immediately. -/
def c5wllm : Nat → LLMTurn :=
  fun _ => ⟨.parsed ⟨"w", [], true, "done", none⟩, 7, 3⟩

/-- C6 counterexample oracle: taskComplete=true on every call. -/
def c6llm : Nat → LLMTurn :=
  fun _ => ⟨.parsed ⟨"finishing", [], true, "done", none⟩, 10, 5⟩

/-- C6 witness oracle: first iteration incomplete, second completes. -/
def c6wllm : Nat → LLMTurn := fun i =>
  if i = 1 then ⟨.parsed ⟨"working", [], false, "wip", none⟩, 10, 5⟩
  else ⟨.parsed ⟨"finishing", [], true, "done", none⟩, 10, 5⟩

/-- C7 counterexample oracle: the agent writes one brand-new route file and
declares completion. -/
def c7llm : Nat → LLMTurn :=
  fun _ => ⟨.parsed ⟨"adding the endpoint",
    [.write "server/api/users/[id].get.js" "export default defineEventHandler(() => 1)"],
    true, "added GET /api/users/[id]", none⟩, 100, 20⟩

/-- A file list with one brand-new route file, flags present (for the
spec-rule half of C7's witness). -/
def c7wfiles : List FileMod :=
  [⟨"server/api/users/index.get.js", "x", "route", some true⟩,
   ⟨"server/utils/db.js", "y", "utility", some false⟩]

/-- C8 witness environment: provisioning succeeds and the project has no
active Source-Repo row. -/
def c8wenv : ModEnv :=
  { provisionContainer := .ok "container-1",
    repoRows := [],
    cloneOutcome := .ok (),
    branchOutcome := .ok (),
    contextFiles := .ok [],
    agentOutcome := .error "unreached",
    dbRows := [],
    commitOutcome := .ok (),
    pushFeatureOutcome := .ok (),
    mergeOutcome := .ok (),
    pushMainOutcome := .ok (),
    blueprintRead := .error "unreached",
    deployOutcome := .error "unreached",
    shouldRedeploy := true }

/-- Agent result used by the creation witness environment. -/
def c4wagent : AgentResult :=
  { success := true, iterations := 2,
    filesModified := [⟨"server/api/a.get.js", "x", "route", none⟩],
    dbQueries := [], summary := "done", apiBlueprint := some "bp",
    tcBreak := true }

/-- C4 witness environment: both detectors false, database needed, every
external operation succeeds. -/
def c4wenv : CreationEnv :=
  { needsAuth := false, needsPayments := false, needsDatabase := true,
    designOutcome := .ok ⟨["users", "posts"]⟩,
    provisionOutcome := .ok (),
    containerOutcome := .ok "container-1",
    integrationOutcome := .ok (),
    agentOutcome := .ok c4wagent,
    corsOutcome := .ok (),
    dbCommitCmds := .ok (),
    ghWorkflowOutcome := .ok (),
    flyTomlOutcome := .ok (),
    flyctlInstall := .ok (),
    flyAppOutcome := .ok ⟨true, ""⟩,
    secretsCmd := .ok (),
    pushBlockCmds := .ok (),
    pushOutcome := .ok ⟨"https://github.com/SaaSManDan/turbobackend-p1"⟩,
    s3Outcome := .ok "bucket/p1/",
    blueprintWrite := .ok (),
    blueprintCommitCmds := .ok () }

/-- C4 counterexample environment: the auth detector returns true (so the
value 8 is published after the initial 10) and container provisioning then
fails. -/
def c4cenv : CreationEnv :=
  { needsAuth := true, needsPayments := false, needsDatabase := false,
    designOutcome := .error "unreached",
    provisionOutcome := .error "unreached",
    containerOutcome := .error "provisioning failed",
    integrationOutcome := .error "unreached",
    agentOutcome := .error "unreached",
    corsOutcome := .error "unreached",
    dbCommitCmds := .error "unreached",
    ghWorkflowOutcome := .error "unreached",
    flyTomlOutcome := .error "unreached",
    flyctlInstall := .error "unreached",
    flyAppOutcome := .error "unreached",
    secretsCmd := .error "unreached",
    pushBlockCmds := .error "unreached",
    pushOutcome := .error "unreached",
    s3Outcome := .error "unreached",
    blueprintWrite := .error "unreached",
    blueprintCommitCmds := .error "unreached" }

/-- The project-databases row for the C2 failing input: the project has an
active database. -/
def c2dbRow : ProjectDbRow := ⟨"p1", "turbobackend_proj_p1", true⟩

/-- The C2 failing input: one deferred CREATE TABLE command produced by the
agentic loop. -/
def c2query : DbQuery :=
  ⟨"CREATE TABLE users (id TEXT PRIMARY KEY, created_at BIGINT)", "users",
   "CREATE TABLE"⟩

/-! # Theorems -/

/-! ## Command executor lemmas -/

theorem executeAgentCommands_eq_map (env : SandboxEnv)
    (commands : List AgentCommand) :
    executeAgentCommands env commands = commands.map (mkCmdResult env) := by
  have h : ∀ (cs : List AgentCommand) (acc : List CmdResult),
      cs.foldl (fun results cmd => results ++ [mkCmdResult env cmd]) acc =
        acc ++ cs.map (mkCmdResult env) := by
    intro cs
    induction cs with
    | nil => intro acc; simp
    | cons c cs ih => intro acc; simp [ih]
  simpa [executeAgentCommands] using h commands []

theorem executeAgentCommands_length (env : SandboxEnv)
    (commands : List AgentCommand) :
    (executeAgentCommands env commands).length = commands.length := by
  rw [executeAgentCommands_eq_map, List.length_map]

/-- C9: for every batch of agent commands, the executor attempts the
commands one at a time in declared order and returns a result list parallel
to the input: position i always holds the result of command i, a failing
command yields a success=false entry carrying its error at its own position
(without aborting the rest of the batch), and a succeeding command yields a
success=true entry carrying its result. -/
theorem c9_commands_independent_in_order (env : SandboxEnv)
    (commands : List AgentCommand) (i : Nat) (h : i < commands.length) :
    (executeAgentCommands env commands).length = commands.length ∧
    (executeAgentCommands env commands).get
        ⟨i, by rw [executeAgentCommands_length]; exact h⟩ =
      mkCmdResult env (commands.get ⟨i, h⟩) ∧
    (mkCmdResult env (commands.get ⟨i, h⟩)).success =
      (runOneCommand env (commands.get ⟨i, h⟩)).isOk ∧
    (∀ e, runOneCommand env (commands.get ⟨i, h⟩) = .error e →
      mkCmdResult env (commands.get ⟨i, h⟩) =
        { command := commands.get ⟨i, h⟩, success := false, result := none,
          error := some e }) ∧
    (∀ r, runOneCommand env (commands.get ⟨i, h⟩) = .ok r →
      mkCmdResult env (commands.get ⟨i, h⟩) =
        { command := commands.get ⟨i, h⟩, success := true, result := some r,
          error := none }) := by
  refine ⟨executeAgentCommands_length env commands, ?_, ?_, ?_, ?_⟩
  · simp only [List.get_eq_getElem, executeAgentCommands_eq_map,
      List.getElem_map]
  · rcases hr : runOneCommand env (commands.get ⟨i, h⟩) with r | e <;>
      simp only [List.get_eq_getElem] at hr <;>
      simp [mkCmdResult, hr, Except.isOk, Except.toBool]
  · intro e he; simp only [List.get_eq_getElem] at he
    simp [mkCmdResult, he]
  · intro r hr; simp only [List.get_eq_getElem] at hr
    simp [mkCmdResult, hr]

/-- C9 witness: the theorem applied to a concrete batch at the position of
the failing command. -/
theorem c9_commands_independent_in_order_witness :
    1 < c9cmds.length ∧
    ((executeAgentCommands c9env c9cmds).length = c9cmds.length ∧
     (executeAgentCommands c9env c9cmds).get ⟨1, by decide⟩ =
       mkCmdResult c9env (c9cmds.get ⟨1, by decide⟩) ∧
     (mkCmdResult c9env (c9cmds.get ⟨1, by decide⟩)).success =
       (runOneCommand c9env (c9cmds.get ⟨1, by decide⟩)).isOk ∧
     (∀ e, runOneCommand c9env (c9cmds.get ⟨1, by decide⟩) = .error e →
       mkCmdResult c9env (c9cmds.get ⟨1, by decide⟩) =
         { command := c9cmds.get ⟨1, by decide⟩, success := false,
           result := none, error := some e }) ∧
     (∀ r, runOneCommand c9env (c9cmds.get ⟨1, by decide⟩) = .ok r →
       mkCmdResult c9env (c9cmds.get ⟨1, by decide⟩) =
         { command := c9cmds.get ⟨1, by decide⟩, success := true,
           result := some r, error := none })) :=
  ⟨by decide, c9_commands_independent_in_order c9env c9cmds 1 (by decide)⟩

/-! ## C2: CREATE TABLE queries in the modification pipeline -/

/-- C2: evaluating the code at the failing input — a project with an active
database and one deferred CREATE TABLE command — shows that the phase-7
helper executes no DDL at all on the project's database: the function body
below the lookup is a TODO stub, so the executed-statement list is empty
instead of containing the CREATE TABLE query. -/
theorem c2_create_table_queries_not_applied :
    addTablesToExistingDatabase [c2dbRow] "p1" [c2query] = .ok [] ∧
    modificationPhase7 [c2dbRow] "p1" [c2query] = .ok [] := by
  constructor <;> rfl

/-! ## C3: cost-write failures propagate -/

/-- C3 (amended): a failure while inserting the Message-Cost row in
trackMessageCost is logged and then re-thrown to the caller (the catch
block ends in a rethrow), and because runAgenticLoop does not guard its
trackMessageCost call, a cost-accumulator write failure makes the whole
agentic-loop invocation fail. -/
theorem c3_cost_write_failure_propagates
    (insertRow : CostRow → Except String Unit) (e : String) :
    (∀ a : CostArgs, insertRow (buildCostRow a) = .error e →
      trackMessageCost insertRow a = .error e) ∧
    (∀ (llm : Nat → LLMTurn) (maxIterations : Nat) (pid uid rid req : String),
      insertRow (aggregatedRow llm maxIterations pid uid rid req) = .error e →
      (runAgenticLoop llm maxIterations insertRow pid uid rid req).1 =
        .error e) := by
  constructor
  · intro a ha
    unfold trackMessageCost
    rw [ha]
  · intro llm mx pid uid rid req hrow
    have h2 : insertRow (buildCostRow
        { inputTokens := (finalLoopState llm mx).totalIn,
          outputTokens := (finalLoopState llm mx).totalOut,
          projectId := pid, jobId := rid, userId := uid,
          promptContent := req,
          messageType := "agentic-container-execution",
          model := "grok-4-fast" }) = .error e := hrow
    unfold runAgenticLoop trackMessageCost
    simp only [h2]

/-- C3 witness: the theorem applied to a concrete failing insert oracle. -/
theorem c3_cost_write_failure_propagates_witness :
    trackMessageCost c3failInsert c3args = .error "db down" ∧
    (runAgenticLoop c3llm 5 c3failInsert "p1" "u1" "r1" "make an api").1 =
      .error "db down" :=
  ⟨(c3_cost_write_failure_propagates c3failInsert "db down").1 c3args rfl,
   (c3_cost_write_failure_propagates c3failInsert "db down").2 c3llm 5
     "p1" "u1" "r1" "make an api" rfl⟩

/-! ## Agentic-loop lemmas -/

theorem loopIter_iteration_ge (llm : Nat → LLMTurn) (fuel : Nat)
    (st : LoopState) : st.iteration ≤ (loopIter llm fuel st).iteration := by
  induction fuel generalizing st with
  | zero => simp [loopIter]
  | succ n ih =>
    rw [loopIter]
    dsimp only
    rcases heq : (llm (st.iteration + 1)).outcome with resp | resp | _ <;>
      simp only [heq]
    · by_cases htc : resp.taskComplete = true
      · simp only [if_pos htc]
        simp [applyParsedStep]
      · simp only [if_neg htc]
        refine le_trans ?_ (ih (applyParsedStep st (st.iteration + 1)
          (llm (st.iteration + 1)) resp))
        simp [applyParsedStep]
    · by_cases htc : resp.taskComplete = true
      · simp only [if_pos htc]
        simp [applyParsedStep]
      · simp only [if_neg htc]
        refine le_trans ?_ (ih (applyParsedStep st (st.iteration + 1)
          (llm (st.iteration + 1)) resp))
        simp [applyParsedStep]
    · refine le_trans (Nat.le_succ _) ?_
      exact ih { st with iteration := st.iteration + 1 }

theorem applyParsedStep_iteration (st : LoopState) (it : Nat) (turn : LLMTurn)
    (resp : AgentResponse) :
    (applyParsedStep st it turn resp).iteration = it := rfl

theorem loopIter_iteration_le (llm : Nat → LLMTurn) (fuel : Nat)
    (st : LoopState) :
    (loopIter llm fuel st).iteration ≤ st.iteration + fuel := by
  induction fuel generalizing st with
  | zero => simp [loopIter]
  | succ n ih =>
    rw [loopIter]
    dsimp only
    rcases heq : (llm (st.iteration + 1)).outcome with resp | resp | _ <;>
      simp only [heq]
    · by_cases htc : resp.taskComplete = true
      · simp only [if_pos htc]
        exact (by omega :
          st.iteration + 1 ≤ st.iteration + (n + 1))
      · simp only [if_neg htc]
        have h1 := ih (applyParsedStep st (st.iteration + 1)
          (llm (st.iteration + 1)) resp)
        rw [applyParsedStep_iteration] at h1
        omega
    · by_cases htc : resp.taskComplete = true
      · simp only [if_pos htc]
        exact (by omega :
          st.iteration + 1 ≤ st.iteration + (n + 1))
      · simp only [if_neg htc]
        have h1 := ih (applyParsedStep st (st.iteration + 1)
          (llm (st.iteration + 1)) resp)
        rw [applyParsedStep_iteration] at h1
        omega
    · have h1 := ih { st with iteration := st.iteration + 1 }
      simp only at h1
      omega

theorem loopIter_tcBreak_of_early_exit (llm : Nat → LLMTurn) (fuel : Nat)
    (st : LoopState) (hst : st.tcBreak = false)
    (h : (loopIter llm fuel st).iteration < st.iteration + fuel) :
    (loopIter llm fuel st).tcBreak = true := by
  induction fuel generalizing st with
  | zero => simp [loopIter] at h
  | succ n ih =>
    rw [loopIter] at h ⊢
    dsimp only at h ⊢
    rcases heq : (llm (st.iteration + 1)).outcome with resp | resp | _ <;>
      simp only [heq] at h ⊢
    · by_cases htc : resp.taskComplete = true
      · simp only [if_pos htc]
      · simp only [if_neg htc] at h ⊢
        refine ih (applyParsedStep st (st.iteration + 1)
          (llm (st.iteration + 1)) resp) (by simp [applyParsedStep, hst]) ?_
        rw [applyParsedStep_iteration]
        omega
    · by_cases htc : resp.taskComplete = true
      · simp only [if_pos htc]
      · simp only [if_neg htc] at h ⊢
        refine ih (applyParsedStep st (st.iteration + 1)
          (llm (st.iteration + 1)) resp) (by simp [applyParsedStep, hst]) ?_
        rw [applyParsedStep_iteration]
        omega
    · refine ih { st with iteration := st.iteration + 1 } hst ?_
      simp only
      omega

theorem loopIter_totals (llm : Nat → LLMTurn) (fuel : Nat) (st : LoopState) :
    (loopIter llm fuel st).totalIn =
      st.totalIn + countedIn llm (st.iteration + 1)
        ((loopIter llm fuel st).iteration - st.iteration) ∧
    (loopIter llm fuel st).totalOut =
      st.totalOut + countedOut llm (st.iteration + 1)
        ((loopIter llm fuel st).iteration - st.iteration) := by
  induction fuel generalizing st with
  | zero => simp [loopIter, countedIn, countedOut]
  | succ n ih =>
    rw [loopIter]
    dsimp only
    rcases heq : (llm (st.iteration + 1)).outcome with resp | resp | _ <;>
      simp only [heq]
    · by_cases htc : resp.taskComplete = true
      · simp only [if_pos htc]
        have h1 : st.iteration + 1 - st.iteration = 1 := by omega
        refine ⟨?_, ?_⟩
        · show st.totalIn + (llm (st.iteration + 1)).inputTokens =
            st.totalIn + countedIn llm (st.iteration + 1)
              (st.iteration + 1 - st.iteration)
          rw [h1]
          simp [countedIn, heq, ParseOutcome.isCounted]
        · show st.totalOut + (llm (st.iteration + 1)).outputTokens =
            st.totalOut + countedOut llm (st.iteration + 1)
              (st.iteration + 1 - st.iteration)
          rw [h1]
          simp [countedOut, heq, ParseOutcome.isCounted]
      · simp only [if_neg htc]
        obtain ⟨hin, hout⟩ := ih (applyParsedStep st (st.iteration + 1)
          (llm (st.iteration + 1)) resp)
        have hge := loopIter_iteration_ge llm n (applyParsedStep st
          (st.iteration + 1) (llm (st.iteration + 1)) resp)
        rw [applyParsedStep_iteration] at hin hout hge
        have htin : (applyParsedStep st (st.iteration + 1)
            (llm (st.iteration + 1)) resp).totalIn =
            st.totalIn + (llm (st.iteration + 1)).inputTokens := rfl
        have htout : (applyParsedStep st (st.iteration + 1)
            (llm (st.iteration + 1)) resp).totalOut =
            st.totalOut + (llm (st.iteration + 1)).outputTokens := rfl
        rw [htin] at hin
        rw [htout] at hout
        have hk : (loopIter llm n (applyParsedStep st (st.iteration + 1)
              (llm (st.iteration + 1)) resp)).iteration - st.iteration
            = ((loopIter llm n (applyParsedStep st (st.iteration + 1)
                (llm (st.iteration + 1)) resp)).iteration
                - (st.iteration + 1)) + 1 := by omega
        rw [hk, countedIn, countedOut]
        simp only [heq, ParseOutcome.isCounted, if_pos]
        refine ⟨?_, ?_⟩
        · rw [hin]; omega
        · rw [hout]; omega
    · by_cases htc : resp.taskComplete = true
      · simp only [if_pos htc]
        have h1 : st.iteration + 1 - st.iteration = 1 := by omega
        refine ⟨?_, ?_⟩
        · show st.totalIn + (llm (st.iteration + 1)).inputTokens =
            st.totalIn + countedIn llm (st.iteration + 1)
              (st.iteration + 1 - st.iteration)
          rw [h1]
          simp [countedIn, heq, ParseOutcome.isCounted]
        · show st.totalOut + (llm (st.iteration + 1)).outputTokens =
            st.totalOut + countedOut llm (st.iteration + 1)
              (st.iteration + 1 - st.iteration)
          rw [h1]
          simp [countedOut, heq, ParseOutcome.isCounted]
      · simp only [if_neg htc]
        obtain ⟨hin, hout⟩ := ih (applyParsedStep st (st.iteration + 1)
          (llm (st.iteration + 1)) resp)
        have hge := loopIter_iteration_ge llm n (applyParsedStep st
          (st.iteration + 1) (llm (st.iteration + 1)) resp)
        rw [applyParsedStep_iteration] at hin hout hge
        have htin : (applyParsedStep st (st.iteration + 1)
            (llm (st.iteration + 1)) resp).totalIn =
            st.totalIn + (llm (st.iteration + 1)).inputTokens := rfl
        have htout : (applyParsedStep st (st.iteration + 1)
            (llm (st.iteration + 1)) resp).totalOut =
            st.totalOut + (llm (st.iteration + 1)).outputTokens := rfl
        rw [htin] at hin
        rw [htout] at hout
        have hk : (loopIter llm n (applyParsedStep st (st.iteration + 1)
              (llm (st.iteration + 1)) resp)).iteration - st.iteration
            = ((loopIter llm n (applyParsedStep st (st.iteration + 1)
                (llm (st.iteration + 1)) resp)).iteration
                - (st.iteration + 1)) + 1 := by omega
        rw [hk, countedIn, countedOut]
        simp only [heq, ParseOutcome.isCounted, if_pos]
        refine ⟨?_, ?_⟩
        · rw [hin]; omega
        · rw [hout]; omega
    · obtain ⟨hin, hout⟩ := ih { st with iteration := st.iteration + 1 }
      have hge := loopIter_iteration_ge llm n
        { st with iteration := st.iteration + 1 }
      simp only at hin hout hge
      have hk : (loopIter llm n { st with iteration := st.iteration + 1 }).iteration
            - st.iteration
          = ((loopIter llm n { st with iteration := st.iteration + 1 }).iteration
              - (st.iteration + 1)) + 1 := by omega
      rw [hk, countedIn, countedOut]
      simp only [heq, ParseOutcome.isCounted, if_neg, Bool.false_eq_true,
        not_false_eq_true, Nat.zero_add]
      exact ⟨hin, hout⟩

theorem trackWrites_isNew (commands : List AgentCommand) :
    ∀ f ∈ trackWrites commands, f.isNew = none := by
  intro f hf
  simp only [trackWrites, List.mem_filterMap] at hf
  obtain ⟨c, _, hc⟩ := hf
  cases c <;> first
    | exact Option.noConfusion hc
    | (cases hc; rfl)

theorem loopIter_filesModified_isNew (llm : Nat → LLMTurn) (fuel : Nat)
    (st : LoopState) (h : ∀ f ∈ st.filesModified, f.isNew = none) :
    ∀ f ∈ (loopIter llm fuel st).filesModified, f.isNew = none := by
  induction fuel generalizing st with
  | zero => simpa [loopIter] using h
  | succ n ih =>
    rw [loopIter]
    dsimp only
    rcases heq : (llm (st.iteration + 1)).outcome with resp | resp | _ <;>
      simp only [heq]
    · have hstep : ∀ f ∈ (applyParsedStep st (st.iteration + 1)
          (llm (st.iteration + 1)) resp).filesModified, f.isNew = none := by
        intro f hf
        simp only [applyParsedStep, List.mem_append] at hf
        rcases hf with hf | hf
        · exact h f hf
        · exact trackWrites_isNew _ f hf
      by_cases htc : resp.taskComplete = true
      · simp only [if_pos htc]
        simpa using hstep
      · simp only [if_neg htc]
        exact ih _ hstep
    · have hstep : ∀ f ∈ (applyParsedStep st (st.iteration + 1)
          (llm (st.iteration + 1)) resp).filesModified, f.isNew = none := by
        intro f hf
        simp only [applyParsedStep, List.mem_append] at hf
        rcases hf with hf | hf
        · exact h f hf
        · exact trackWrites_isNew _ f hf
      by_cases htc : resp.taskComplete = true
      · simp only [if_pos htc]
        simpa using hstep
      · simp only [if_neg htc]
        exact ih _ hstep
    · exact ih { st with iteration := st.iteration + 1 } h

/-- C3 counterexample: at a concrete input where the INSERT fails, the
trackMessageCost call returns the thrown error to its caller — refuting the
claim that a Message-Cost write failure is swallowed and never propagates. -/
theorem c3_swallowed_counterexample :
    trackMessageCost c3failInsert
      { inputTokens := 1, outputTokens := 1, projectId := "p2",
        jobId := "j2", userId := "u2", promptContent := "x",
        messageType := "xai-non-stream", model := "grok-4-fast" } =
      .error "db down" := by rfl

/-! ## C5, C6, C7: agentic-loop claims -/

/-- C5 (amended): for every agentic-loop invocation whose aggregated-row
insert succeeds, exactly one Message-Cost row is written when the loop
exits; it carries messageType agentic-container-execution and aggregates
the token counts of exactly those iterations whose response parsed (raw or
after sanitization) — iterations whose response failed both parses are
skipped by the loop's continue before the token accumulation, so their
tokens are not included. -/
theorem c5_single_aggregated_cost_row (llm : Nat → LLMTurn)
    (maxIterations : Nat) (insertRow : CostRow → Except String Unit)
    (pid uid rid req : String)
    (h : insertRow (aggregatedRow llm maxIterations pid uid rid req) = .ok ()) :
    (runAgenticLoop llm maxIterations insertRow pid uid rid req).2 =
      [aggregatedRow llm maxIterations pid uid rid req] ∧
    (aggregatedRow llm maxIterations pid uid rid req).messageType =
      "agentic-container-execution" ∧
    (aggregatedRow llm maxIterations pid uid rid req).inputTokens =
      countedIn llm 1 (finalLoopState llm maxIterations).iteration ∧
    (aggregatedRow llm maxIterations pid uid rid req).outputTokens =
      countedOut llm 1 (finalLoopState llm maxIterations).iteration := by
  have h2 : insertRow (buildCostRow
      { inputTokens := (finalLoopState llm maxIterations).totalIn,
        outputTokens := (finalLoopState llm maxIterations).totalOut,
        projectId := pid, jobId := rid, userId := uid,
        promptContent := req,
        messageType := "agentic-container-execution",
        model := "grok-4-fast" }) = .ok () := h
  have htotals := loopIter_totals llm maxIterations
    { iteration := 0, totalIn := 0, totalOut := 0, filesModified := [],
      dbQueries := [], tcBreak := false, lastBlueprint := none }
  refine ⟨?_, rfl, ?_, ?_⟩
  · unfold runAgenticLoop trackMessageCost
    simp only [h2]
    rfl
  · show (finalLoopState llm maxIterations).totalIn = _
    unfold finalLoopState
    rw [htotals.1]
    simp
  · show (finalLoopState llm maxIterations).totalOut = _
    unfold finalLoopState
    rw [htotals.2]
    simp

/-- C5 witness: the theorem applied to a concrete one-iteration loop with a
succeeding insert oracle. -/
theorem c5_single_aggregated_cost_row_witness :
    (runAgenticLoop c5wllm 4 okInsert "p1" "u1" "r1" "make an api").2 =
      [aggregatedRow c5wllm 4 "p1" "u1" "r1" "make an api"] ∧
    (aggregatedRow c5wllm 4 "p1" "u1" "r1" "make an api").messageType =
      "agentic-container-execution" ∧
    (aggregatedRow c5wllm 4 "p1" "u1" "r1" "make an api").inputTokens =
      countedIn c5wllm 1 (finalLoopState c5wllm 4).iteration ∧
    (aggregatedRow c5wllm 4 "p1" "u1" "r1" "make an api").outputTokens =
      countedOut c5wllm 1 (finalLoopState c5wllm 4).iteration :=
  c5_single_aggregated_cost_row c5wllm 4 okInsert "p1" "u1" "r1" "make an api"
    rfl

/-- C5 counterexample: a run whose first iteration is unparseable (10 input
and 5 output tokens billed) and whose second iteration parses and completes
(20 and 7).  Exactly one cost row is written, but it records 20 input
tokens, not the 30 billed across all iterations of the loop: the totals do
not aggregate across all iterations as claimed. -/
theorem c5_aggregation_counterexample :
    (resultOf (runAgenticLoop c5llm 25 okInsert "p1" "u1" "r1" "q")).iterations
      = 2 ∧
    (runAgenticLoop c5llm 25 okInsert "p1" "u1" "r1" "q").2.map
        (fun r => (r.inputTokens, r.outputTokens)) = [(20, 7)] ∧
    (c5llm 1).inputTokens + (c5llm 2).inputTokens = 30 ∧
    (c5llm 1).outputTokens + (c5llm 2).outputTokens = 12 ∧
    (20 ≠ 30 ∧ 7 ≠ 12) := by decide

/-- C6 (amended): the loop's returned success flag is computed as
iterations < maxIterations, so success=true holds iff the loop exited via
taskComplete strictly before using up the iteration cap; in particular a
run whose final permitted iteration returns taskComplete=true yields
success=false, and a run that exhausts the cap without taskComplete also
yields success=false. -/
theorem c6_success_iff_taskComplete_before_cap (llm : Nat → LLMTurn)
    (maxIterations : Nat) (pid uid rid req : String) (res : AgentResult)
    (h : (runAgenticLoop llm maxIterations okInsert pid uid rid req).1 =
      .ok res) :
    res.iterations ≤ maxIterations ∧
    (res.success = true ↔
      (res.tcBreak = true ∧ res.iterations < maxIterations)) := by
  unfold runAgenticLoop trackMessageCost at h
  simp only [okInsert] at h
  rsuffices ⟨h1, h2⟩ : (finalLoopState llm maxIterations).iteration ≤ maxIterations ∧
      ((decide ((finalLoopState llm maxIterations).iteration < maxIterations) = true) ↔
        ((finalLoopState llm maxIterations).tcBreak = true ∧
          (finalLoopState llm maxIterations).iteration < maxIterations))
  · cases h
    exact ⟨h1, h2⟩
  constructor
  · have := loopIter_iteration_le llm maxIterations
      { iteration := 0, totalIn := 0, totalOut := 0, filesModified := [],
        dbQueries := [], tcBreak := false, lastBlueprint := none }
    simpa [finalLoopState] using this
  · constructor
    · intro hd
      have hlt : (finalLoopState llm maxIterations).iteration < maxIterations := by
        simpa using hd
      refine ⟨?_, hlt⟩
      have := loopIter_tcBreak_of_early_exit llm maxIterations
        { iteration := 0, totalIn := 0, totalOut := 0, filesModified := [],
          dbQueries := [], tcBreak := false, lastBlueprint := none }
        rfl (by simpa [finalLoopState] using hlt)
      simpa [finalLoopState] using this
    · intro hd
      simpa using hd.2

/-- C6 witness: the theorem applied to a run that completes on iteration 2
of a cap of 3. -/
theorem c6_success_iff_taskComplete_before_cap_witness :
    (resultOf (runAgenticLoop c6wllm 3 okInsert "p" "u" "r" "q")).iterations
        ≤ 3 ∧
    ((resultOf (runAgenticLoop c6wllm 3 okInsert "p" "u" "r" "q")).success =
        true ↔
      ((resultOf (runAgenticLoop c6wllm 3 okInsert "p" "u" "r" "q")).tcBreak =
          true ∧
        (resultOf (runAgenticLoop c6wllm 3 okInsert "p" "u" "r" "q")).iterations
          < 3)) :=
  c6_success_iff_taskComplete_before_cap c6wllm 3 "p" "u" "r" "q"
    (resultOf (runAgenticLoop c6wllm 3 okInsert "p" "u" "r" "q")) rfl

/-- C6 counterexample: with a finite cap of 1, a run whose final permitted
iteration returns taskComplete=true (so the loop terminates via the
taskComplete break, recorded by tcBreak) yields success=false, refuting
the claimed equivalence. -/
theorem c6_final_iteration_counterexample :
    (resultOf (runAgenticLoop c6llm 1 okInsert "p" "u" "r" "q")).tcBreak
      = true ∧
    (resultOf (runAgenticLoop c6llm 1 okInsert "p" "u" "r" "q")).iterations
      = 1 ∧
    (resultOf (runAgenticLoop c6llm 1 okInsert "p" "u" "r" "q")).success
      = false := by decide

/-- C7 (amended): the classification rule in determineModificationType is
exactly the stated one over a file list carrying explicit marked-new flags;
however the agentic loop records its filesModified entries without any
isNew flag, so on every loop result the new-routes test is false and the
classification can never be endpoints_added — a run that writes a brand-new
route file is recorded as endpoints_modified instead. -/
theorem c7_classification_rule_but_no_new_flag :
    (∀ files : List FileMod,
      determineModificationType files = modificationTypeSpec files) ∧
    (∀ (llm : Nat → LLMTurn) (maxIterations : Nat)
        (insertRow : CostRow → Except String Unit)
        (pid uid rid req : String) (res : AgentResult),
      (runAgenticLoop llm maxIterations insertRow pid uid rid req).1 =
        .ok res →
      (∀ f ∈ res.filesModified, f.isNew = none) ∧
      determineModificationType res.filesModified ≠ "endpoints_added") := by
  constructor
  · intro files
    unfold determineModificationType modificationTypeSpec
    have hiff : ∀ p : FileMod → Bool,
        (files.any p = true) ↔ ¬(files.filter p = []) := by
      intro p
      rw [List.any_eq_true]
      constructor
      · rintro ⟨x, hx, hpx⟩ hemp
        have hmem : x ∈ files.filter p := List.mem_filter.mpr ⟨hx, hpx⟩
        rw [hemp] at hmem
        exact absurd hmem (List.not_mem_nil x)
      · intro hne
        obtain ⟨x, hx⟩ := List.exists_mem_of_ne_nil _ hne
        exact ⟨x, (List.mem_filter.mp hx).1, (List.mem_filter.mp hx).2⟩
    by_cases h1 : files.any (fun f => f.ftype == "route" && truthy f.isNew) = true
    · rw [if_pos h1, if_pos ((hiff _).mp h1)]
    · rw [if_neg h1, if_neg (fun hc => h1 ((hiff _).mpr hc))]
      by_cases h2 : files.any (fun f => f.ftype == "route" && !truthy f.isNew) = true
      · rw [if_pos h2, if_pos ((hiff _).mp h2)]
      · rw [if_neg h2, if_neg (fun hc => h2 ((hiff _).mpr hc))]
  · intro llm mx insertRow pid uid rid req res h
    have hres : res.filesModified = (finalLoopState llm mx).filesModified := by
      unfold runAgenticLoop trackMessageCost at h
      rcases hi : insertRow (buildCostRow
          { inputTokens := (finalLoopState llm mx).totalIn,
            outputTokens := (finalLoopState llm mx).totalOut,
            projectId := pid, jobId := rid, userId := uid,
            promptContent := req,
            messageType := "agentic-container-execution",
            model := "grok-4-fast" }) with e | u
      · simp only [hi] at h
        exact absurd h (by simp)
      · simp only [hi] at h
        cases h
        rfl
    have hall : ∀ f ∈ res.filesModified, f.isNew = none := by
      rw [hres]
      exact loopIter_filesModified_isNew llm mx _ (by simp)
    refine ⟨hall, ?_⟩
    have hfalse : res.filesModified.any
        (fun f => f.ftype == "route" && truthy f.isNew) = false := by
      rw [List.any_eq_false]
      intro f hf
      rw [hall f hf]
      simp [truthy]
    unfold determineModificationType
    rw [hfalse]
    simp only [Bool.false_eq_true, if_false]
    by_cases h2 : res.filesModified.any
        (fun f => f.ftype == "route" && !truthy f.isNew) = true
    · rw [if_pos h2]; decide
    · rw [if_neg h2]; decide

/-- C7 witness: the rule half applied to a concrete flagged file list, and
the no-endpoints_added half applied to a concrete completed run. -/
theorem c7_classification_rule_but_no_new_flag_witness :
    determineModificationType c7wfiles = modificationTypeSpec c7wfiles ∧
    determineModificationType
        (resultOf (runAgenticLoop c7llm 5 okInsert "p5" "u5" "r5"
          "add endpoint")).filesModified ≠ "endpoints_added" :=
  ⟨c7_classification_rule_but_no_new_flag.1 c7wfiles,
   (c7_classification_rule_but_no_new_flag.2 c7llm 5 okInsert "p5" "u5" "r5"
      "add endpoint"
      (resultOf (runAgenticLoop c7llm 5 okInsert "p5" "u5" "r5"
        "add endpoint")) rfl).2⟩

/-- C7 counterexample: a modification run in which the agent writes one
brand-new route file; the loop records it with file type route (and no
marked-new flag), and the recorded activity type is endpoints_modified,
not endpoints_added as the claim requires. -/
theorem c7_new_route_counterexample :
    (resultOf (runAgenticLoop c7llm 25 okInsert "p5" "u5" "r5"
        "add endpoint")).filesModified.map FileMod.ftype = ["route"] ∧
    determineModificationType
        (resultOf (runAgenticLoop c7llm 25 okInsert "p5" "u5" "r5"
          "add endpoint")).filesModified = "endpoints_modified" := by
  constructor <;> rfl

/-! ## C10: deterministic names -/

theorem str_ext {s t : String} (h : s.data = t.data) : s = t := by
  cases s; cases t; exact congrArg String.mk h

theorem data_append (s t : String) : (s ++ t).data = s.data ++ t.data := rfl

theorem lowerChar_ne_hyphen {c : Char} (hc : c ≠ '-') : lowerChar c ≠ '-' := by
  unfold lowerChar
  by_cases h1 : c = 'A'
  · rw [if_pos h1]; decide
  rw [if_neg h1]
  by_cases h2 : c = 'B'
  · rw [if_pos h2]; decide
  rw [if_neg h2]
  by_cases h3 : c = 'C'
  · rw [if_pos h3]; decide
  rw [if_neg h3]
  by_cases h4 : c = 'D'
  · rw [if_pos h4]; decide
  rw [if_neg h4]
  by_cases h5 : c = 'E'
  · rw [if_pos h5]; decide
  rw [if_neg h5]
  by_cases h6 : c = 'F'
  · rw [if_pos h6]; decide
  rw [if_neg h6]
  by_cases h7 : c = 'G'
  · rw [if_pos h7]; decide
  rw [if_neg h7]
  by_cases h8 : c = 'H'
  · rw [if_pos h8]; decide
  rw [if_neg h8]
  by_cases h9 : c = 'I'
  · rw [if_pos h9]; decide
  rw [if_neg h9]
  by_cases h10 : c = 'J'
  · rw [if_pos h10]; decide
  rw [if_neg h10]
  by_cases h11 : c = 'K'
  · rw [if_pos h11]; decide
  rw [if_neg h11]
  by_cases h12 : c = 'L'
  · rw [if_pos h12]; decide
  rw [if_neg h12]
  by_cases h13 : c = 'M'
  · rw [if_pos h13]; decide
  rw [if_neg h13]
  by_cases h14 : c = 'N'
  · rw [if_pos h14]; decide
  rw [if_neg h14]
  by_cases h15 : c = 'O'
  · rw [if_pos h15]; decide
  rw [if_neg h15]
  by_cases h16 : c = 'P'
  · rw [if_pos h16]; decide
  rw [if_neg h16]
  by_cases h17 : c = 'Q'
  · rw [if_pos h17]; decide
  rw [if_neg h17]
  by_cases h18 : c = 'R'
  · rw [if_pos h18]; decide
  rw [if_neg h18]
  by_cases h19 : c = 'S'
  · rw [if_pos h19]; decide
  rw [if_neg h19]
  by_cases h20 : c = 'T'
  · rw [if_pos h20]; decide
  rw [if_neg h20]
  by_cases h21 : c = 'U'
  · rw [if_pos h21]; decide
  rw [if_neg h21]
  by_cases h22 : c = 'V'
  · rw [if_pos h22]; decide
  rw [if_neg h22]
  by_cases h23 : c = 'W'
  · rw [if_pos h23]; decide
  rw [if_neg h23]
  by_cases h24 : c = 'X'
  · rw [if_pos h24]; decide
  rw [if_neg h24]
  by_cases h25 : c = 'Y'
  · rw [if_pos h25]; decide
  rw [if_neg h25]
  by_cases h26 : c = 'Z'
  · rw [if_pos h26]; decide
  rw [if_neg h26]
  exact hc

theorem lowerChar_repChar_comm (c : Char) :
    lowerChar (repChar c) = repChar (lowerChar c) := by
  by_cases hc : c = '-'
  · subst hc; decide
  · have h1 : repChar c = c := by simp [repChar, hc]
    have h2 : repChar (lowerChar c) = lowerChar c := by
      simp [repChar, lowerChar_ne_hyphen hc]
    rw [h1, h2]

/-- C10 (amended): the provisioner's database name and the Fly.io service's
app name match the spec formula for every projectId; the dev-database
executor's database name and the daytona fly.toml fallback's app name omit
the lowercasing, so they match the spec formula only for projectIds that
are already lowercase. -/
theorem c10_name_derivations (projectId : String) :
    provisionerDbName projectId = specDbName projectId ∧
    flyServiceAppName projectId = specAppName projectId ∧
    (lowerStr projectId = projectId →
      devExecutorDbName projectId = specDbName projectId ∧
      daytonaFlyTomlAppName projectId = specAppName projectId) := by
  refine ⟨?_, ?_, ?_⟩
  · refine str_ext ?_
    show (("turbobackend_proj_" ++ replaceHyphens projectId).data.map lowerChar)
        = "turbobackend_proj_".data ++ (lowerStr projectId).data.map repChar
    rw [data_append]
    show ("turbobackend_proj_".data ++ projectId.data.map repChar).map lowerChar
        = "turbobackend_proj_".data ++ (projectId.data.map lowerChar).map repChar
    rw [List.map_append, List.map_map, List.map_map]
    have h1 : "turbobackend_proj_".data.map lowerChar =
        "turbobackend_proj_".data := by decide
    rw [h1]
    congr 1
    exact List.map_congr_left fun c _ => lowerChar_repChar_comm c
  · refine str_ext ?_
    show (("turbobackend-" ++ projectId).data.map lowerChar)
        = "turbobackend-".data ++ projectId.data.map lowerChar
    rw [data_append, List.map_append]
    have h1 : "turbobackend-".data.map lowerChar = "turbobackend-".data := by
      decide
    rw [h1]
  · intro h
    constructor
    · show "turbobackend_proj_" ++ replaceHyphens projectId
        = "turbobackend_proj_" ++ replaceHyphens (lowerStr projectId)
      rw [h]
    · show "turbobackend-" ++ projectId = "turbobackend-" ++ lowerStr projectId
      rw [h]

/-- C10 witness: the theorem applied to the lowercase projectId ab-1, whose
lowercased form is itself. -/
theorem c10_name_derivations_witness :
    provisionerDbName "ab-1" = specDbName "ab-1" ∧
    flyServiceAppName "ab-1" = specAppName "ab-1" ∧
    devExecutorDbName "ab-1" = specDbName "ab-1" ∧
    daytonaFlyTomlAppName "ab-1" = specAppName "ab-1" :=
  ⟨(c10_name_derivations "ab-1").1,
   (c10_name_derivations "ab-1").2.1,
   ((c10_name_derivations "ab-1").2.2 (by decide)).1,
   ((c10_name_derivations "ab-1").2.2 (by decide)).2⟩

/-- C10 counterexample: for the projectId Ab-1 (nano-ids may contain
uppercase letters), the dev-database executor derives
turbobackend_proj_Ab_1 while the claimed formula gives
turbobackend_proj_ab_1, and the daytona fly.toml fallback likewise keeps
the uppercase letter in the app name. -/
theorem c10_uppercase_counterexample :
    devExecutorDbName "Ab-1" = "turbobackend_proj_Ab_1" ∧
    specDbName "Ab-1" = "turbobackend_proj_ab_1" ∧
    devExecutorDbName "Ab-1" ≠ specDbName "Ab-1" ∧
    daytonaFlyTomlAppName "Ab-1" ≠ specAppName "Ab-1" := by decide

/-! ## Pipeline-combinator lemmas -/

theorem bind_eq_stepBind {α β : Type} (x : StepResult α)
    (f : α → StepResult β) : (x >>= f) = stepBind x f := rfl

theorem pure_eq_stepPure {α : Type} (a : α) :
    (pure a : StepResult α) = stepPure a := rfl

theorem noTerm_nil : NoTerm [] := by intro m hm; cases hm

theorem noTerm_stepBind {α β : Type} {x : StepResult α}
    {f : α → StepResult β} (hx : NoTerm x.1)
    (hf : ∀ a, NoTerm ((f a).1)) : NoTerm ((stepBind x f).1) := by
  rcases x with ⟨msgs, res⟩
  cases res with
  | error e => exact hx
  | ok a =>
    intro m hm
    simp only [stepBind, List.mem_append] at hm
    rcases hm with hm | hm
    · exact hx m hm
    · exact hf a m hm

theorem noTerm_bind {α β : Type} {x : StepResult α} {f : α → StepResult β}
    (hx : NoTerm x.1) (hf : ∀ a, NoTerm ((f a).1)) :
    NoTerm ((x >>= f).1) := noTerm_stepBind hx hf

theorem noTerm_emitProgress (message : String) (value : Nat) :
    NoTerm ((emitProgress message value).1) := by
  intro m hm
  simp only [emitProgress, List.mem_singleton] at hm
  subst hm
  rfl

theorem noTerm_emitTyped (payload : String) :
    NoTerm ((emitTyped payload).1) := by
  intro m hm
  simp only [emitTyped, List.mem_singleton] at hm
  subst hm
  rfl

theorem noTerm_liftE {α : Type} (x : Except String α) :
    NoTerm ((liftE x).1) := noTerm_nil

theorem noTerm_stepPure {α : Type} (a : α) :
    NoTerm ((stepPure a).1) := noTerm_nil

theorem noTerm_pure {α : Type} (a : α) :
    NoTerm ((pure a : StepResult α).1) := noTerm_nil

theorem noTerm_stepFail {α : Type} (e : String) :
    NoTerm ((stepFail e : StepResult α).1) := noTerm_nil

theorem terminalCount_append (l₁ l₂ : List Msg) :
    terminalCount (l₁ ++ l₂) = terminalCount l₁ + terminalCount l₂ := by
  simp [terminalCount, List.filter_append]

theorem terminalCount_eq_zero_of_noTerm {l : List Msg} (h : NoTerm l) :
    terminalCount l = 0 := by
  simp only [terminalCount, List.length_eq_zero]
  rw [List.filter_eq_nil]
  intro m hm
  simp [h m hm]

/-! ## NoTerm for the pipeline bodies -/

theorem modificationBody_noTerm (env : ModEnv) (projectId branchName : String) :
    NoTerm ((modificationBody env projectId branchName).1) := by
  unfold modificationBody
  refine noTerm_bind (noTerm_emitProgress _ _) fun _ => ?_
  refine noTerm_bind (noTerm_liftE _) fun _ => ?_
  refine noTerm_bind (noTerm_emitProgress _ _) fun _ => ?_
  refine noTerm_bind (noTerm_liftE _) fun _ => ?_
  refine noTerm_bind (noTerm_emitProgress _ _) fun _ => ?_
  refine noTerm_bind (noTerm_liftE _) fun _ => ?_
  refine noTerm_bind (noTerm_emitProgress _ _) fun _ => ?_
  refine noTerm_bind (noTerm_liftE _) fun _ => ?_
  refine noTerm_bind (noTerm_emitProgress _ _) fun _ => ?_
  refine noTerm_bind (noTerm_liftE _) fun _ => ?_
  refine noTerm_bind (noTerm_emitProgress _ _) fun _ => ?_
  refine noTerm_bind (noTerm_emitProgress _ _) fun _ => ?_
  refine noTerm_bind (noTerm_liftE _) fun _ => ?_
  refine noTerm_bind (noTerm_emitProgress _ _) fun _ => ?_
  refine noTerm_bind (noTerm_liftE _) fun _ => ?_
  refine noTerm_bind (noTerm_liftE _) fun _ => ?_
  refine noTerm_bind (noTerm_liftE _) fun _ => ?_
  refine noTerm_bind (noTerm_emitProgress _ _) fun _ => ?_
  refine noTerm_bind (noTerm_liftE _) fun _ => ?_
  refine noTerm_bind (noTerm_liftE _) fun _ => ?_
  refine noTerm_bind (noTerm_emitProgress _ _) fun _ => ?_
  refine noTerm_bind ?_ fun _ => ?_
  · split
    · split
      · exact noTerm_emitTyped _
      · exact noTerm_stepPure _
    · exact noTerm_stepPure _
  refine noTerm_bind ?_ fun _ => ?_
  · split
    · exact noTerm_bind (noTerm_liftE _) fun _ => noTerm_emitProgress _ _
    · exact noTerm_stepPure _
  exact noTerm_pure _

theorem creationPhaseDetect_noTerm (env : CreationEnv) :
    NoTerm ((creationPhaseDetect env).1) := by
  unfold creationPhaseDetect
  refine noTerm_bind ?_ fun _ => ?_
  · split
    · exact noTerm_emitProgress _ _
    · exact noTerm_stepPure _
  · split
    · exact noTerm_emitProgress _ _
    · exact noTerm_stepPure _

theorem creationPhaseDb_noTerm (env : CreationEnv) (projectId : String) :
    NoTerm ((creationPhaseDb env projectId).1) := by
  unfold creationPhaseDb
  split
  · refine noTerm_bind (noTerm_emitProgress _ _) fun _ => ?_
    refine noTerm_bind (noTerm_liftE _) fun _ => ?_
    refine noTerm_bind (noTerm_emitProgress _ _) fun _ => ?_
    refine noTerm_bind (noTerm_liftE _) fun _ => ?_
    refine noTerm_bind (noTerm_emitProgress _ _) fun _ => ?_
    exact noTerm_pure _
  · exact noTerm_stepPure _

theorem creationPhaseIntegration_noTerm (env : CreationEnv) :
    NoTerm ((creationPhaseIntegration env).1) := by
  unfold creationPhaseIntegration
  split
  · refine noTerm_bind (noTerm_emitProgress _ _) fun _ => ?_
    refine noTerm_bind (noTerm_liftE _) fun _ => ?_
    exact noTerm_emitProgress _ _
  · exact noTerm_stepPure _

theorem creationPhaseInject_noTerm (env : CreationEnv) (dbProvisioned : Bool) :
    NoTerm ((creationPhaseInject env dbProvisioned).1) := by
  unfold creationPhaseInject
  refine noTerm_bind (noTerm_liftE _) fun _ => ?_
  refine noTerm_bind (noTerm_emitProgress _ _) fun _ => ?_
  refine noTerm_bind ?_ fun _ => ?_
  · split
    · exact noTerm_bind (noTerm_liftE _) fun _ => noTerm_emitProgress _ _
    · exact noTerm_stepPure _
  refine noTerm_bind (noTerm_liftE _) fun _ => ?_
  refine noTerm_bind (noTerm_emitProgress _ _) fun _ => ?_
  refine noTerm_bind (noTerm_liftE _) fun _ => ?_
  refine noTerm_bind (noTerm_emitProgress _ _) fun _ => ?_
  refine noTerm_bind (noTerm_liftE _) fun _ => ?_
  refine noTerm_bind (noTerm_emitProgress _ _) fun _ => ?_
  refine noTerm_bind (noTerm_liftE _) fun _ => ?_
  refine noTerm_bind ?_ fun _ => ?_
  · split
    · exact noTerm_stepPure _
    · exact noTerm_stepFail _
  refine noTerm_bind (noTerm_emitProgress _ _) fun _ => ?_
  split
  · exact noTerm_bind (noTerm_liftE _) fun _ => noTerm_emitProgress _ _
  · exact noTerm_stepPure _

theorem creationPhasePush_noTerm (env : CreationEnv) (n : Nat) :
    NoTerm ((creationPhasePush env n).1) := by
  unfold creationPhasePush
  split
  · refine noTerm_bind (noTerm_liftE _) fun _ => ?_
    refine noTerm_bind (noTerm_liftE _) fun _ => ?_
    refine noTerm_bind (noTerm_emitProgress _ _) fun _ => ?_
    refine noTerm_bind (noTerm_liftE _) fun _ => ?_
    refine noTerm_bind (noTerm_emitProgress _ _) fun _ => ?_
    exact noTerm_pure _
  · exact noTerm_stepPure _

theorem creationPhaseBlueprint_noTerm (env : CreationEnv)
    (apiBlueprint : Option String) :
    NoTerm ((creationPhaseBlueprint env apiBlueprint).1) := by
  unfold creationPhaseBlueprint
  split
  · refine noTerm_bind (noTerm_liftE _) fun _ => ?_
    refine noTerm_bind (noTerm_liftE _) fun _ => ?_
    exact noTerm_pure _
  · exact noTerm_stepPure _

theorem creationBody_noTerm (env : CreationEnv) (projectId : String) :
    NoTerm ((creationBody env projectId).1) := by
  unfold creationBody
  refine noTerm_bind (noTerm_emitProgress _ _) fun _ => ?_
  refine noTerm_bind (creationPhaseDetect_noTerm _) fun _ => ?_
  refine noTerm_bind (creationPhaseDb_noTerm _ _) fun _ => ?_
  refine noTerm_bind (noTerm_liftE _) fun _ => ?_
  refine noTerm_bind (noTerm_emitProgress _ _) fun _ => ?_
  refine noTerm_bind (creationPhaseIntegration_noTerm _) fun _ => ?_
  refine noTerm_bind (noTerm_emitProgress _ _) fun _ => ?_
  refine noTerm_bind (noTerm_liftE _) fun _ => ?_
  refine noTerm_bind (noTerm_emitProgress _ _) fun _ => ?_
  refine noTerm_bind (creationPhaseInject_noTerm _ _) fun _ => ?_
  refine noTerm_bind (creationPhasePush_noTerm _ _) fun _ => ?_
  refine noTerm_bind (creationPhaseBlueprint_noTerm _ _) fun _ => ?_
  exact noTerm_pure _

/-! ## C1: terminal messages per intent -/

/-- C1 (amended): the creation and modification pipelines publish exactly
one terminal message on the job's stream, on every success and failure
path; the secret-sync processor, however, publishes nothing at all — so the
universal exactly-one-terminal property fails for the sync-secret intent. -/
theorem c1_terminal_messages_per_intent :
    (∀ (env : CreationEnv) (projectId : String),
      terminalCount (handleProjectCreationOrchestration env projectId).published = 1) ∧
    (∀ (env : ModEnv) (projectId branchName : String),
      terminalCount (handleProjectModificationOrchestration env projectId
        branchName).published = 1) ∧
    (∀ (sync : SyncView) (projectId credentialName credentialValue : String),
      (flyioSecretsSyncProcessor sync projectId credentialName
        credentialValue).published = []) := by
  refine ⟨?_, ?_, ?_⟩
  · intro env projectId
    unfold handleProjectCreationOrchestration
    rcases hbody : creationBody env projectId with ⟨msgs, res⟩
    have hnt : NoTerm msgs := by
      have := creationBody_noTerm env projectId
      rw [hbody] at this
      exact this
    cases res with
    | ok info =>
      simp only
      rw [terminalCount_append, terminalCount_append, terminalCount_append,
        terminalCount_eq_zero_of_noTerm hnt]
      rcases info.blueprint with _ | bp <;>
        rcases hp : info.agentResult.filesModified.length > 0 &&
          info.pushed.isSome with _ | _ <;>
        simp [hp, terminalCount, Msg.isTerminal]
    | error e =>
      simp only
      rw [terminalCount_append, terminalCount_eq_zero_of_noTerm hnt]
      rfl
  · intro env projectId branchName
    unfold handleProjectModificationOrchestration
    rcases hbody : modificationBody env projectId branchName with ⟨msgs, res⟩
    have hnt : NoTerm msgs := by
      have := modificationBody_noTerm env projectId branchName
      rw [hbody] at this
      exact this
    cases res with
    | ok agentResult =>
      simp only
      rw [terminalCount_append, terminalCount_eq_zero_of_noTerm hnt]
      rfl
    | error e =>
      simp only
      rw [terminalCount_append, terminalCount_eq_zero_of_noTerm hnt]
      rfl
  · intro sync projectId credentialName credentialValue
    unfold flyioSecretsSyncProcessor
    split <;> rfl

/-- C1 counterexample: a successfully processed secret-sync job publishes
no message at all on any stream — zero terminal messages, not exactly
one. -/
theorem c1_sync_publishes_nothing_counterexample :
    (flyioSecretsSyncProcessor ⟨true, ""⟩ "p9" "STRIPE_SECRET_KEY"
      "sk_live_1").published = [] ∧
    terminalCount (flyioSecretsSyncProcessor ⟨true, ""⟩ "p9"
      "STRIPE_SECRET_KEY" "sk_live_1").published = 0 := by
  constructor <;> rfl

/-! ## C8: modification without an active Source-Repo row -/

/-- C8: for every modification job whose project has no active Source-Repo
row (and whose sandbox provisioning succeeded, so the lookup is reached),
the job fails: the published stream carries the two progress messages and
then exactly one terminal error whose text contains
"No GitHub repository found", the outer transaction is rolled back, and the
error re-raises so the queue observes a failure. -/
theorem c8_missing_repo_fails_job (env : ModEnv)
    (projectId branchName cid : String)
    (hprov : env.provisionContainer = .ok cid)
    (hrepo : activeRepoRow env.repoRows projectId = none) :
    handleProjectModificationOrchestration env projectId branchName =
      { published := [.progress "Provisioning new sandbox..." 10,
          .progress "Sandbox provisioned" 15,
          .error ("Modification failed: " ++
            ("No GitHub repository found for project " ++ projectId))],
        committed := false,
        result := .error ("No GitHub repository found for project " ++
          projectId) } ∧
    "No GitHub repository found".data <:+:
      ("Modification failed: " ++
        ("No GitHub repository found for project " ++ projectId)).data ∧
    terminalCount (handleProjectModificationOrchestration env projectId
      branchName).published = 1 := by
  have hbody : modificationBody env projectId branchName =
      ([.progress "Provisioning new sandbox..." 10,
        .progress "Sandbox provisioned" 15],
       .error ("No GitHub repository found for project " ++ projectId)) := by
    unfold modificationBody
    simp only [bind_eq_stepBind, stepBind, emitProgress, liftE, hprov,
      getProjectGitHubRepo, hrepo]
    rfl
  refine ⟨?_, ?_, ?_⟩
  · unfold handleProjectModificationOrchestration
    rw [hbody]
    rfl
  · refine ⟨"Modification failed: ".data,
      " for project ".data ++ projectId.data, ?_⟩
    rw [data_append, data_append]
    have h1 : "Modification failed: ".data ++
        "No GitHub repository found".data ++
        (" for project ".data ++ projectId.data) =
        "Modification failed: ".data ++
        (("No GitHub repository found".data ++ " for project ".data) ++
          projectId.data) := by
      simp [List.append_assoc]
    rw [h1]
    have h2 : "No GitHub repository found".data ++ " for project ".data =
        "No GitHub repository found for project ".data := by decide
    rw [h2]
  · unfold handleProjectModificationOrchestration
    rw [hbody]
    rfl

/-- C8 witness: the theorem applied to a concrete environment with no repo
rows. -/
theorem c8_missing_repo_fails_job_witness :
    handleProjectModificationOrchestration c8wenv "p6"
        "feature/modification-1700000000000" =
      { published := [.progress "Provisioning new sandbox..." 10,
          .progress "Sandbox provisioned" 15,
          .error ("Modification failed: " ++
            ("No GitHub repository found for project " ++ "p6"))],
        committed := false,
        result := .error ("No GitHub repository found for project " ++
          "p6") } ∧
    "No GitHub repository found".data <:+:
      ("Modification failed: " ++
        ("No GitHub repository found for project " ++ "p6")).data ∧
    terminalCount (handleProjectModificationOrchestration c8wenv "p6"
      "feature/modification-1700000000000").published = 1 :=
  c8_missing_repo_fails_job c8wenv "p6" "feature/modification-1700000000000"
    "container-1" rfl rfl

/-! ## C4: progress-value ordering in the creation pipeline -/

open List

theorem progressValues_append (l₁ l₂ : List Msg) :
    progressValues (l₁ ++ l₂) = progressValues l₁ ++ progressValues l₂ := by
  simp [progressValues, List.filterMap_append]

theorem pv_bind_sublist {α β : Type} (L1 L2 : List Nat) {x : StepResult α}
    {f : α → StepResult β} (hx : progressValues x.1 <+ L1)
    (hf : ∀ a, progressValues ((f a).1) <+ L2) :
    progressValues ((x >>= f).1) <+ L1 ++ L2 := by
  rcases x with ⟨msgs, res⟩
  cases res with
  | error e =>
    exact (hx.trans (List.sublist_append_left L1 L2))
  | ok a =>
    show progressValues (msgs ++ (f a).1) <+ L1 ++ L2
    rw [progressValues_append]
    exact List.Sublist.append hx (hf a)

theorem pv_emitProgress_sublist (message : String) (value : Nat) :
    progressValues ((emitProgress message value).1) <+ [value] := by
  simp [emitProgress, progressValues]

theorem pv_liftE_sublist {α : Type} (x : Except String α) (L : List Nat) :
    progressValues ((liftE x).1) <+ L := by
  simp [liftE, progressValues]

theorem pv_stepPure_sublist {α : Type} (a : α) (L : List Nat) :
    progressValues ((stepPure a).1) <+ L := by
  simp [stepPure, progressValues]

theorem pv_pure_sublist {α : Type} (a : α) (L : List Nat) :
    progressValues ((pure a : StepResult α).1) <+ L :=
  pv_stepPure_sublist a L

theorem pv_phaseDetect_null (env : CreationEnv)
    (hauth : env.needsAuth = false) (hpay : env.needsPayments = false) :
    progressValues ((creationPhaseDetect env).1) = [] := by
  unfold creationPhaseDetect
  simp [hauth, hpay, bind_eq_stepBind, stepBind, stepPure, progressValues]

theorem pv_phaseDb (env : CreationEnv) (projectId : String) :
    progressValues ((creationPhaseDb env projectId).1) <+ [12, 15, 18] := by
  obtain ⟨na, np, nd, des, prov, cont, integ, agent, cors, dbc, gh, toml,
    flyi, flyapp, secr, pushb, pusho, s3o, bw, bcc⟩ := env
  unfold creationPhaseDb
  cases nd <;>
    rcases des with e | s <;>
    rcases prov with e2 | u <;>
    simp [bind_eq_stepBind, stepBind, emitProgress, liftE, stepPure,
      pure_eq_stepPure, progressValues]

theorem pv_phaseIntegration (env : CreationEnv) :
    progressValues ((creationPhaseIntegration env).1) <+ [25, 28] := by
  obtain ⟨na, np, nd, des, prov, cont, integ, agent, cors, dbc, gh, toml,
    flyi, flyapp, secr, pushb, pusho, s3o, bw, bcc⟩ := env
  unfold creationPhaseIntegration
  cases na <;> cases np <;>
    rcases integ with e | u <;>
    simp [bind_eq_stepBind, stepBind, emitProgress, liftE, stepPure,
      progressValues]

theorem pv_stepFail_sublist {α : Type} (e : String) (L : List Nat) :
    progressValues ((stepFail e : StepResult α).1) <+ L := by
  simp [stepFail, progressValues]

theorem pv_phaseInject (env : CreationEnv) (dbProvisioned : Bool) :
    progressValues ((creationPhaseInject env dbProvisioned).1) <+
      [72, 73, 74, 76, 77, 78, 79] := by
  unfold creationPhaseInject
  refine pv_bind_sublist [] [72, 73, 74, 76, 77, 78, 79]
    (pv_liftE_sublist _ _) fun _ => ?_
  refine pv_bind_sublist [72] [73, 74, 76, 77, 78, 79]
    (pv_emitProgress_sublist _ _) fun _ => ?_
  refine pv_bind_sublist [73] [74, 76, 77, 78, 79] ?_ fun _ => ?_
  · split
    · exact pv_bind_sublist [] [73] (pv_liftE_sublist _ _) fun _ =>
        pv_emitProgress_sublist _ _
    · exact pv_stepPure_sublist _ _
  refine pv_bind_sublist [] [74, 76, 77, 78, 79]
    (pv_liftE_sublist _ _) fun _ => ?_
  refine pv_bind_sublist [74] [76, 77, 78, 79]
    (pv_emitProgress_sublist _ _) fun _ => ?_
  refine pv_bind_sublist [] [76, 77, 78, 79]
    (pv_liftE_sublist _ _) fun _ => ?_
  refine pv_bind_sublist [76] [77, 78, 79]
    (pv_emitProgress_sublist _ _) fun _ => ?_
  refine pv_bind_sublist [] [77, 78, 79]
    (pv_liftE_sublist _ _) fun _ => ?_
  refine pv_bind_sublist [77] [78, 79]
    (pv_emitProgress_sublist _ _) fun _ => ?_
  refine pv_bind_sublist [] [78, 79]
    (pv_liftE_sublist _ _) fun fa => ?_
  refine pv_bind_sublist [] [78, 79] ?_ fun _ => ?_
  · split
    · exact pv_stepPure_sublist _ _
    · exact pv_stepFail_sublist _ _
  refine pv_bind_sublist [78] [79]
    (pv_emitProgress_sublist _ _) fun _ => ?_
  split
  · exact pv_bind_sublist [] [79] (pv_liftE_sublist _ _) fun _ =>
      pv_emitProgress_sublist _ _
  · exact pv_stepPure_sublist _ _

theorem pv_phasePush (env : CreationEnv) (n : Nat) :
    progressValues ((creationPhasePush env n).1) <+ [80, 90] := by
  obtain ⟨na, np, nd, des, prov, cont, integ, agent, cors, dbc, gh, toml,
    flyi, flyapp, secr, pushb, pusho, s3o, bw, bcc⟩ := env
  unfold creationPhasePush
  by_cases hn : n > 0 <;>
    rcases pushb with e1 | u1 <;>
    rcases pusho with e2 | p2 <;>
    rcases s3o with e3 | s3 <;>
    simp [hn, bind_eq_stepBind, stepBind, emitProgress, liftE, stepPure,
      pure_eq_stepPure, progressValues]

theorem pv_phaseBlueprint (env : CreationEnv) (apiBlueprint : Option String) :
    progressValues ((creationPhaseBlueprint env apiBlueprint).1) = [] := by
  obtain ⟨na, np, nd, des, prov, cont, integ, agent, cors, dbc, gh, toml,
    flyi, flyapp, secr, pushb, pusho, s3o, bw, bcc⟩ := env
  unfold creationPhaseBlueprint
  rcases apiBlueprint with _ | bp <;>
    try rcases bw with e1 | u1 <;>
    try rcases bcc with e2 | u2
  all_goals
    simp [bind_eq_stepBind, stepBind, liftE, stepPure, pure_eq_stepPure,
      progressValues]

theorem creationBody_pv_sublist (env : CreationEnv) (projectId : String)
    (hauth : env.needsAuth = false) (hpay : env.needsPayments = false) :
    progressValues ((creationBody env projectId).1) <+
      [10, 12, 15, 18, 20, 25, 28, 30, 70, 72, 73, 74, 76, 77, 78, 79,
        80, 90] := by
  unfold creationBody
  refine pv_bind_sublist [10]
    [12, 15, 18, 20, 25, 28, 30, 70, 72, 73, 74, 76, 77, 78, 79, 80, 90]
    (pv_emitProgress_sublist _ _) fun _ => ?_
  refine pv_bind_sublist []
    [12, 15, 18, 20, 25, 28, 30, 70, 72, 73, 74, 76, 77, 78, 79, 80, 90]
    (by rw [pv_phaseDetect_null env hauth hpay]) fun _ => ?_
  refine pv_bind_sublist [12, 15, 18]
    [20, 25, 28, 30, 70, 72, 73, 74, 76, 77, 78, 79, 80, 90]
    (pv_phaseDb env projectId) fun dbName? => ?_
  refine pv_bind_sublist []
    [20, 25, 28, 30, 70, 72, 73, 74, 76, 77, 78, 79, 80, 90]
    (pv_liftE_sublist _ _) fun _ => ?_
  refine pv_bind_sublist [20]
    [25, 28, 30, 70, 72, 73, 74, 76, 77, 78, 79, 80, 90]
    (pv_emitProgress_sublist _ _) fun _ => ?_
  refine pv_bind_sublist [25, 28]
    [30, 70, 72, 73, 74, 76, 77, 78, 79, 80, 90]
    (pv_phaseIntegration env) fun _ => ?_
  refine pv_bind_sublist [30]
    [70, 72, 73, 74, 76, 77, 78, 79, 80, 90]
    (pv_emitProgress_sublist _ _) fun _ => ?_
  refine pv_bind_sublist []
    [70, 72, 73, 74, 76, 77, 78, 79, 80, 90]
    (pv_liftE_sublist _ _) fun agentResult => ?_
  refine pv_bind_sublist [70]
    [72, 73, 74, 76, 77, 78, 79, 80, 90]
    (pv_emitProgress_sublist _ _) fun _ => ?_
  refine pv_bind_sublist [72, 73, 74, 76, 77, 78, 79]
    [80, 90]
    (pv_phaseInject env _) fun _ => ?_
  refine pv_bind_sublist [80, 90] []
    (pv_phasePush env _) fun pushed? => ?_
  refine pv_bind_sublist [] []
    (by rw [pv_phaseBlueprint env _]) fun blueprint? => ?_
  exact pv_pure_sublist _ _

/-- C4 (amended): on every path of the creation pipeline on which the auth
and payment detectors both return false, the sequence of published progress
values is non-decreasing up to the terminal message.  (When a detector
returns true, the value 8 or 9 is published after the initial 10, so those
paths violate the ordering — see the counterexample.) -/
theorem c4_progress_nondecreasing_without_auth_payment (env : CreationEnv)
    (projectId : String) (hauth : env.needsAuth = false)
    (hpay : env.needsPayments = false) :
    List.Chain' (fun a b => a ≤ b)
      (progressValues
        (handleProjectCreationOrchestration env projectId).published) := by
  have hsub := creationBody_pv_sublist env projectId hauth hpay
  have hpveq : progressValues
      (handleProjectCreationOrchestration env projectId).published =
      progressValues ((creationBody env projectId).1) := by
    unfold handleProjectCreationOrchestration
    rcases hbody : creationBody env projectId with ⟨msgs, res⟩
    cases res with
    | ok info =>
      show progressValues (msgs ++ _ ++ _ ++ _) = _
      rw [progressValues_append, progressValues_append, progressValues_append]
      rcases info.blueprint with _ | bp <;>
        rcases hc : info.agentResult.filesModified.length > 0 &&
          info.pushed.isSome with _ | _ <;>
        simp [hc, progressValues, hbody]
    | error e =>
      show progressValues (msgs ++ _) = _
      rw [progressValues_append]
      simp [progressValues, hbody]
  rw [hpveq]
  have hmaster : List.Pairwise (fun a b : Nat => a ≤ b)
      [10, 12, 15, 18, 20, 25, 28, 30, 70, 72, 73, 74, 76, 77, 78, 79,
        80, 90] := by
    decide
  exact List.chain'_iff_pairwise.mpr (hmaster.sublist hsub)

/-- C4 witness: the theorem applied to a concrete all-successful creation
environment with both detectors false. -/
theorem c4_progress_nondecreasing_witness :
    List.Chain' (fun a b => a ≤ b)
      (progressValues
        (handleProjectCreationOrchestration c4wenv "p1").published) :=
  c4_progress_nondecreasing_without_auth_payment c4wenv "p1" rfl rfl

/-- C4 counterexample: on the path where the auth detector returns true,
the creation handler publishes progress 10 and then progress 8, so the
published progress values are not non-decreasing. -/
theorem c4_auth_path_counterexample :
    progressValues
      (handleProjectCreationOrchestration c4cenv "p1").published = [10, 8] ∧
    ¬ List.Chain' (fun a b => a ≤ b)
      (progressValues
        (handleProjectCreationOrchestration c4cenv "p1").published) := by
  have h1 : progressValues
      (handleProjectCreationOrchestration c4cenv "p1").published = [10, 8] := by
    rfl
  refine ⟨h1, ?_⟩
  rw [h1, List.chain'_cons]
  simp

end TurboBackend
